import Mathlib

set_option maxHeartbeats 1000000

/- Shallow embedding of the DAOS agent fabric device-selection engine
   (src/control/cmd/daos_agent/fabric.go) and the agent configuration
   validation (fabric device filter part of the agent config file).

   Modelling conventions:
   - Go machine integers are modelled as Nat/Int; `%` on the always
     non-negative cursor values is Nat.mod, which agrees with Go's `%` there.
   - The Go map `NUMAFabricMap` (map[int][]*FabricInterface) is an
     association list with unique keys; the Go maps of cursors
     (map[int]int, zero value on a missing key) are total functions.
   - Go errors are an explicit error type; Go panics are modelled as the
     distinguished error constructors `fatalNoDevices` (the panic in
     getNextDevIndex) and `fatalIndexOutOfRange` (a slice/array index
     panic), which abort the computation instead of being handled.
   - The OS network-interface address lookup wrapped by `getAddrFI`
     (net.InterfaceByName, outside this repository) is threaded through as
     an explicit ambient parameter, also called `getAddrFI`. -/

/-- Fabric network device class (`hardware.NetDevClass`, a uint32). -/
abbrev NetDevClass := Nat

/-- `FabricDevClassManual` is a wildcard netDevClass that indicates the
device was supplied by the user (Go: `hardware.NetDevClass(1 << 31)`). -/
def FabricDevClassManual : NetDevClass := 2 ^ 31

/-- A network address as returned by the liveness check: either an
`*net.IPNet` (recording whether its IP is non-nil and whether it is the
unspecified address), or an address of some other kind. -/
inductive NetAddr where
  | ipNet (ipPresent : Bool) (unspecified : Bool)
  | other
  deriving DecidableEq, Repr

/-- `addrFI` is a fabric interface that can provide its addresses: the
result of its single `Addrs()` call, which may fail. -/
structure addrFI where
  Addrs : Except String (List NetAddr)

/-- `FabricInterface` represents a generic fabric interface.
The `hw` field stands for the backing `*hardware.FabricInterface`; the
hardware package is outside the given sources, so — modelled from the spec
("providers: a set of fabric-provider identifiers the device supports") —
it is reduced to the provider-name set, the only part the engine reads
(via `SupportsProvider`). -/
structure FabricInterface where
  Name : String
  Domain : String
  NetDevClass : NetDevClass
  hw : List String
  deriving DecidableEq, Repr

/-- `HasProvider` determines if the FabricInterface supports a given
provider (Go: `f.hw.SupportsProvider(provider)`, set membership). -/
def FabricInterface.HasProvider (f : FabricInterface) (provider : String) : Bool :=
  f.hw.contains provider

/-- The two device-filter modes. -/
inductive filterMode where
  | exclude
  | include_devices
  deriving DecidableEq, Repr

/-- `deviceFilter`: a set of interface names plus a mode. `deviceSet` is a
`common.StringSet` (a Go map, possibly nil), hence the `Option`. -/
structure deviceFilter where
  deviceSet : Option (List String)
  mode : filterMode
  deriving DecidableEq, Repr

/-- `ShouldIgnore` on a possibly-nil `*deviceFilter` (Go nil receiver and
nil deviceSet both yield false; exclude mode ignores members of the set,
include mode ignores non-members). -/
def ShouldIgnore (df : Option deviceFilter) (devName : String) : Bool :=
  match df with
  | none => false
  | some f =>
    match f.deviceSet with
    | none => false
    | some s =>
      if f.mode = filterMode.exclude then s.contains devName
      else !(s.contains devName)

/-- Errors and fatal conditions of the engine. The first five mirror the
Go error values; the two `fatal…` constructors stand for Go panics. -/
inductive FabricErr where
  | providerRequired
  | notFound (netDevClass : NetDevClass)
  | ifaceNotFound (name : String)
  | domainNotFound (iface : String) (domain : String)
  | providerNotSupported (iface : String) (provider : String)
  | fatalNoDevices (numaNode : Int)
  | fatalIndexOutOfRange
  deriving DecidableEq, Repr

/-- `NUMAFabric` represents a set of fabric interfaces organized by NUMA
node, together with the engine's mutable selection state.
`numaMap` is an association list with unique keys (the Go map);
`currentNumaDevIdx` is total with default 0 (the Go map's zero value);
`getAddrInterface` is the injectable liveness lookup, possibly nil. -/
structure NUMAFabric where
  numaMap : List (Int × List FabricInterface)
  currentNumaDevIdx : Int → Nat
  currentNUMANode : Nat
  ifaceFilter : Option deviceFilter
  getAddrInterface : Option (String → Except String addrFI)

/-- Association-list lookup standing for Go map indexing (`none` = key
absent). -/
def mapGet (m : List (Int × List FabricInterface)) (k : Int) :
    Option (List FabricInterface) :=
  match m with
  | [] => none
  | (k1, v) :: rest => if k = k1 then some v else mapGet rest k

/-- Go `n.numaMap[numaNode] = append(n.numaMap[numaNode], fi)`: append to
the node's list, creating the key if absent. -/
def mapAppend (m : List (Int × List FabricInterface)) (k : Int)
    (fi : FabricInterface) : List (Int × List FabricInterface) :=
  match m with
  | [] => [(k, [fi])]
  | (k1, v) :: rest =>
    if k = k1 then (k1, v ++ [fi]) :: rest else (k1, v) :: mapAppend rest k fi

/-- `Add` adds a fabric interface to a specific NUMA node. -/
def NUMAFabric.Add (n : NUMAFabric) (numaNode : Int) (fi : FabricInterface) :
    NUMAFabric :=
  { n with numaMap := mapAppend n.numaMap numaNode fi }

/-- `getNumDevices` gets the number of devices on a given NUMA node
(0 when the node is absent from the map). -/
def NUMAFabric.getNumDevices (n : NUMAFabric) (numaNode : Int) : Nat :=
  match mapGet n.numaMap numaNode with
  | some devs => devs.length
  | none => 0

/-- `getNumNUMANodes` gets the number of NUMA nodes (number of map keys). -/
def NUMAFabric.getNumNUMANodes (n : NUMAFabric) : Nat :=
  n.numaMap.length

/-- `getNUMANodes` returns the map's keys sorted ascending
(Go: collect keys, `sort.Ints`). -/
def NUMAFabric.getNUMANodes (n : NUMAFabric) : List Int :=
  List.insertionSort (· ≤ ·) (n.numaMap.map Prod.fst)

/-- `getNextDevIndex` is a simple round-robin load balancing scheme: return
the node's current index and advance it by one modulo the device count.
When the node has no devices the Go code panics
("no fabric interfaces on NUMA node %d"): modelled as `fatalNoDevices`. -/
def NUMAFabric.getNextDevIndex (n : NUMAFabric) (numaNode : Int) :
    Except FabricErr Nat × NUMAFabric :=
  let numDevs := n.getNumDevices numaNode
  if 0 < numDevs then
    let deviceIndex := n.currentNumaDevIdx numaNode
    (Except.ok deviceIndex,
      { n with currentNumaDevIdx :=
          fun k => if k = numaNode then (deviceIndex + 1) % numDevs
                   else n.currentNumaDevIdx k })
  else
    (Except.error (FabricErr.fatalNoDevices numaNode), n)

/-- `getNextDevice`: `n.numaMap[numaNode][idx]`; an out-of-range index on
the (possibly nil) slice is a Go panic, modelled as
`fatalIndexOutOfRange`. -/
def NUMAFabric.getNextDevice (n : NUMAFabric) (numaNode : Int) :
    Except FabricErr FabricInterface × NUMAFabric :=
  match n.getNextDevIndex numaNode with
  | (Except.ok idx, n1) =>
    match ((mapGet n1.numaMap numaNode).getD []).get? idx with
    | some fi => (Except.ok fi, n1)
    | none => (Except.error FabricErr.fatalIndexOutOfRange, n1)
  | (Except.error e, n1) => (Except.error e, n1)

/-- Is an address a live one in the sense of `validateDevice`'s loop:
an `*net.IPNet` whose IP is non-nil and not the unspecified address. -/
def isLiveAddr : NetAddr → Bool
  | NetAddr.ipNet ipPresent unspecified => ipPresent && !unspecified
  | NetAddr.other => false

/-- `validateDevice`: resolve the address lookup (lazily defaulting the
engine's `getAddrInterface` to the ambient `getAddrFI` when nil — this
mutates the engine), fetch the addresses, and succeed iff at least one
live address exists; otherwise fail with "no IP addresses …". -/
def NUMAFabric.validateDevice (getAddrFI : String → Except String addrFI)
    (n : NUMAFabric) (fi : FabricInterface) : Except String Unit × NUMAFabric :=
  let lookupState : (String → Except String addrFI) × NUMAFabric :=
    match n.getAddrInterface with
    | some f => (f, n)
    | none => (getAddrFI, { n with getAddrInterface := some getAddrFI })
  match lookupState.1 fi.Name with
  | Except.error e => (Except.error e, lookupState.2)
  | Except.ok addrInterface =>
    match addrInterface.Addrs with
    | Except.error e => (Except.error e, lookupState.2)
    | Except.ok addrs =>
      if addrs.any isLiveAddr then (Except.ok (), lookupState.2)
      else (Except.error ("no IP addresses for fabric interface " ++ fi.Name),
            lookupState.2)

/-- The loop body of `getDeviceFromNUMA`, recursing on the remaining
iteration count (`checked < n.getNumDevices(numaNode)` in Go; the bound is
constant across iterations because the loop body never modifies
`numaMap`). Skips on filter, class/provider mismatch (unless the class is
`FabricDevClassManual`), and validation failure; returns the first
survivor. A fatal condition (Go panic) from `getNextDevice` aborts. -/
def NUMAFabric.scanNUMA (getAddrFI : String → Except String addrFI)
    (numaNode : Int) (netDevClass : NetDevClass) (provider : String) :
    NUMAFabric → Nat → Except FabricErr FabricInterface × NUMAFabric
  | n, 0 => (Except.error (FabricErr.notFound netDevClass), n)
  | n, checked + 1 =>
    match n.getNextDevice numaNode with
    | (Except.error e, n1) => (Except.error e, n1)
    | (Except.ok fabricIF, n1) =>
      if ShouldIgnore n1.ifaceFilter fabricIF.Name then
        NUMAFabric.scanNUMA getAddrFI numaNode netDevClass provider n1 checked
      else if fabricIF.NetDevClass ≠ FabricDevClassManual ∧
              fabricIF.NetDevClass ≠ netDevClass then
        NUMAFabric.scanNUMA getAddrFI numaNode netDevClass provider n1 checked
      else if fabricIF.NetDevClass ≠ FabricDevClassManual ∧
              ¬(fabricIF.HasProvider provider = true) then
        NUMAFabric.scanNUMA getAddrFI numaNode netDevClass provider n1 checked
      else
        match NUMAFabric.validateDevice getAddrFI n1 fabricIF with
        | (Except.error _, n2) =>
          NUMAFabric.scanNUMA getAddrFI numaNode netDevClass provider n2 checked
        | (Except.ok _, n2) => (Except.ok fabricIF, n2)

/-- `getDeviceFromNUMA`: run the scan loop for at most
`n.getNumDevices numaNode` attempts; when nothing survives, the loop falls
through to `FabricNotFoundErr(netDevClass)`. -/
def NUMAFabric.getDeviceFromNUMA (getAddrFI : String → Except String addrFI)
    (n : NUMAFabric) (numaNode : Int) (netDevClass : NetDevClass)
    (provider : String) : Except FabricErr FabricInterface × NUMAFabric :=
  NUMAFabric.scanNUMA getAddrFI numaNode netDevClass provider n
    (n.getNumDevices numaNode)

/-- The loop body of `findOnAnyNUMA`: advance the cross-node cursor modulo
the node count, scan the node at that position of the sorted node list,
return on success, continue on error, abort on a fatal condition
(a Go panic inside the scan unwinds instead of being treated as an
error). -/
def NUMAFabric.findLoop (getAddrFI : String → Except String addrFI)
    (nodes : List Int) (netDevClass : NetDevClass) (provider : String) :
    NUMAFabric → Nat → Except FabricErr FabricInterface × NUMAFabric
  | n, 0 => (Except.error (FabricErr.notFound netDevClass), n)
  | n, remaining + 1 =>
    let n1 : NUMAFabric :=
      { n with currentNUMANode := (n.currentNUMANode + 1) % nodes.length }
    match nodes.get? n1.currentNUMANode with
    | none => (Except.error FabricErr.fatalIndexOutOfRange, n1)
    | some node =>
      match NUMAFabric.getDeviceFromNUMA getAddrFI n1 node netDevClass provider with
      | (Except.ok fi, n2) => (Except.ok fi, n2)
      | (Except.error (FabricErr.fatalNoDevices m), n2) =>
        (Except.error (FabricErr.fatalNoDevices m), n2)
      | (Except.error FabricErr.fatalIndexOutOfRange, n2) =>
        (Except.error FabricErr.fatalIndexOutOfRange, n2)
      | (Except.error _, n2) =>
        NUMAFabric.findLoop getAddrFI nodes netDevClass provider n2 remaining

/-- `findOnAnyNUMA`: rotate once through all populated NUMA nodes in
ascending id order, starting one past the cross-node cursor. -/
def NUMAFabric.findOnAnyNUMA (getAddrFI : String → Except String addrFI)
    (n : NUMAFabric) (netDevClass : NetDevClass) (provider : String) :
    Except FabricErr FabricInterface × NUMAFabric :=
  NUMAFabric.findLoop getAddrFI n.getNUMANodes netDevClass provider n
    n.getNUMANodes.length

/-- `copyFI` returns a (shallow) copy of the fabric interface
(Go: `*fiCopy = *fi`). -/
def copyFI (fi : FabricInterface) : FabricInterface :=
  { Name := fi.Name, Domain := fi.Domain, NetDevClass := fi.NetDevClass,
    hw := fi.hw }

/-- `FabricIfaceParams` is a set of parameters associated with a fabric
interface. -/
structure FabricIfaceParams where
  Interface : String
  Domain : String
  Provider : String
  DevClass : NetDevClass
  NUMANode : Int
  deriving DecidableEq, Repr

/-- `GetDevice` selects the next available interface device on the
requested NUMA node: mandatory provider, then the local scan, then the
cross-node fallback; a fatal condition (Go panic) from the local scan
unwinds instead of triggering the fallback. -/
def NUMAFabric.GetDevice (getAddrFI : String → Except String addrFI)
    (n : NUMAFabric) (params : FabricIfaceParams) :
    Except FabricErr FabricInterface × NUMAFabric :=
  if params.Provider = "" then (Except.error FabricErr.providerRequired, n)
  else
    match NUMAFabric.getDeviceFromNUMA getAddrFI n params.NUMANode
        params.DevClass params.Provider with
    | (Except.ok fi, n1) => (Except.ok (copyFI fi), n1)
    | (Except.error (FabricErr.fatalNoDevices m), n1) =>
      (Except.error (FabricErr.fatalNoDevices m), n1)
    | (Except.error FabricErr.fatalIndexOutOfRange, n1) =>
      (Except.error FabricErr.fatalIndexOutOfRange, n1)
    | (Except.error _, n1) =>
      match NUMAFabric.findOnAnyNUMA getAddrFI n1 params.DevClass
          params.Provider with
      | (Except.ok fi, n2) => (Except.ok (copyFI fi), n2)
      | (Except.error e, n2) => (Except.error e, n2)

/-- Inner loop of `Find` over one node's device list: collect copies of
the name matches in order. -/
def findInDevs (name : String) : List FabricInterface → List FabricInterface
  | [] => []
  | fi :: rest =>
    if fi.Name = name then copyFI fi :: findInDevs name rest
    else findInDevs name rest

/-- Outer loop of `Find` over the map. -/
def findAll (name : String) :
    List (Int × List FabricInterface) → List FabricInterface
  | [] => []
  | (_, devs) :: rest => findInDevs name devs ++ findAll name rest

/-- `Find` finds a specific fabric device by name; there may be more than
one domain associated. Fails with "fabric interface %q not found" when
nothing matches. -/
def NUMAFabric.Find (n : NUMAFabric) (name : String) :
    Except FabricErr (List FabricInterface) :=
  let result := findAll name n.numaMap
  if 0 < result.length then Except.ok result
  else Except.error (FabricErr.ifaceNotFound name)

/-- `filterDomain`: keep interfaces whose domain equals the requested one,
or whose name equals it while their domain is empty. -/
def filterDomain (domain : String) (fiList : List FabricInterface) :
    List FabricInterface :=
  fiList.filter fun fi =>
    fi.Domain == domain || (fi.Name == domain && fi.Domain == "")

/-- `filterProvider`: keep interfaces supporting the provider, or of class
`FabricDevClassManual`. -/
def filterProvider (provider : String) (fiList : List FabricInterface) :
    List FabricInterface :=
  fiList.filter fun fi =>
    fi.HasProvider provider || fi.NetDevClass == FabricDevClassManual

/-- `FindDevice` looks up a fabric device with a given name, domain, and
provider; the name is required, the rest are optional refinements, each
with its own not-found error. -/
def NUMAFabric.FindDevice (n : NUMAFabric) (params : FabricIfaceParams) :
    Except FabricErr (List FabricInterface) :=
  match n.Find params.Interface with
  | Except.error e => Except.error e
  | Except.ok fiList0 =>
    let step1 : Except FabricErr (List FabricInterface) :=
      if params.Domain ≠ "" then
        let l := filterDomain params.Domain fiList0
        if l.length = 0 then
          Except.error (FabricErr.domainNotFound params.Interface params.Domain)
        else Except.ok l
      else Except.ok fiList0
    match step1 with
    | Except.error e => Except.error e
    | Except.ok fiList1 =>
      if params.Provider ≠ "" then
        let l := filterProvider params.Provider fiList1
        if l.length = 0 then
          Except.error
            (FabricErr.providerNotSupported params.Interface params.Provider)
        else Except.ok l
      else Except.ok fiList1

/-- Iterate `GetDevice` a given number of times with fixed parameters,
collecting the per-call results (harness for "successive calls"). -/
def NUMAFabric.getDeviceN (getAddrFI : String → Except String addrFI)
    (params : FabricIfaceParams) :
    NUMAFabric → Nat → List (Except FabricErr FabricInterface) × NUMAFabric
  | n, 0 => ([], n)
  | n, count + 1 =>
    let call := NUMAFabric.GetDevice getAddrFI n params
    let rest := NUMAFabric.getDeviceN getAddrFI params call.2 count
    (call.1 :: rest.1, rest.2)

/-- Agent configuration validation errors, mirroring the error values of
`Config.Validate` (only the fields that validation reads are modelled). -/
inductive ConfigErr where
  | invalidSystemName
  | telemetryRetainRequiresPort
  | telemetryEnabledRequiresPort
  | conflictingFabricIfaces
  deriving DecidableEq, Repr

/-- The agent `Config`, restricted to the fields `Validate` reads.
`TelemetryRetain` is a duration in nanoseconds, `TelemetryPort` an int;
the two fabric-interface sets are `common.StringSet`s. -/
structure Config where
  SystemName : String
  TelemetryPort : Int
  TelemetryEnabled : Bool
  TelemetryRetain : Int
  ExcludeFabricIfaces : List String
  IncludeFabricIfaces : List String
  deriving DecidableEq, Repr

/-- `Config.Validate` performs basic validation of the configuration,
returning the first failing check's error, `none` on success.
`daos.SystemNameIsValid` lives outside the given sources and is passed in
as the ambient parameter `systemNameIsValid`. -/
def Config.Validate (systemNameIsValid : String → Bool) (c : Config) :
    Option ConfigErr :=
  if !(systemNameIsValid c.SystemName) then some ConfigErr.invalidSystemName
  else if c.TelemetryRetain > 0 && c.TelemetryPort == 0 then
    some ConfigErr.telemetryRetainRequiresPort
  else if c.TelemetryEnabled && c.TelemetryPort == 0 then
    some ConfigErr.telemetryEnabledRequiresPort
  else if 0 < c.ExcludeFabricIfaces.length ∧ 0 < c.IncludeFabricIfaces.length then
    some ConfigErr.conflictingFabricIfaces
  else none

instance {ε α : Type} [DecidableEq ε] [DecidableEq α] : DecidableEq (Except ε α) :=
  fun a b =>
    match a, b with
    | Except.ok x, Except.ok y =>
      if h : x = y then isTrue (by rw [h])
      else isFalse (by intro hc; cases hc; exact h rfl)
    | Except.error x, Except.error y =>
      if h : x = y then isTrue (by rw [h])
      else isFalse (by intro hc; cases hc; exact h rfl)
    | Except.ok _, Except.error _ => isFalse (by intro hc; cases hc)
    | Except.error _, Except.ok _ => isFalse (by intro hc; cases hc)

/-- A device is eligible for selection in a scan for (netDevClass,
provider) on engine `n`: it passes the filter, the class/provider checks
(or is of class `FabricDevClassManual`), and validates as live. Mirrors
the skip conditions of `scanNUMA`; used only to state theorems. -/
def eligibleB (gfi : String → Except String addrFI) (n : NUMAFabric)
    (netDevClass : NetDevClass) (provider : String) (fi : FabricInterface) : Bool :=
  !(ShouldIgnore n.ifaceFilter fi.Name) &&
  (decide (fi.NetDevClass = FabricDevClassManual) ||
    (decide (fi.NetDevClass = netDevClass) && fi.HasProvider provider)) &&
  (match (NUMAFabric.validateDevice gfi n fi).1 with
   | Except.ok _ => true
   | Except.error _ => false)

/-- Reachable-state invariant: on every populated node the round-robin
cursor is in range. It holds for a fresh engine (every cursor 0) and is
preserved by the engine's operations, which only store values reduced
modulo the device count. -/
def cursorOK (n : NUMAFabric) : Prop :=
  ∀ k, 0 < n.getNumDevices k → n.currentNumaDevIdx k < n.getNumDevices k

/-- Reachable-state invariant for the cross-node cursor: it is a valid
index into the node list, or the inventory is empty. It holds for a fresh
engine (cursor 0) and is preserved by `GetDevice`, whose writes are
reduced modulo the node count. -/
def crossOK (n : NUMAFabric) : Prop :=
  n.currentNUMANode < n.numaMap.length ∨ n.numaMap.length = 0

/-- The inventory invariant stated by the spec: a node key present in the
map never holds an empty device list. -/
def invariantNonEmpty (n : NUMAFabric) : Prop :=
  ∀ p ∈ n.numaMap, p.2 ≠ []

/-- Test lookup under which every interface reports one live address. -/
def osLive : String → Except String addrFI := fun _ =>
  Except.ok ⟨Except.ok [NetAddr.ipNet true false]⟩

/-- Device "A": class 2, provider "P". -/
def devA : FabricInterface := ⟨"A", "A", 2, ["P"]⟩

/-- Device "B": class 2, provider "P". -/
def devB : FabricInterface := ⟨"B", "B", 2, ["P"]⟩

/-- Device "C": class 2, provider "P". -/
def devC : FabricInterface := ⟨"C", "C", 2, ["P"]⟩

/-- Engine whose node 0 holds A, B, C in order, all live. -/
def nABC : NUMAFabric :=
  ⟨[(0, [devA, devB, devC])], fun _ => 0, 0, none, some osLive⟩

/-- Request for class 2 / provider "P" on node 0. -/
def pXP : FabricIfaceParams := ⟨"", "", "P", 2, 0⟩

/-- Device "W": class 3 (not the requested class 2). -/
def devW : FabricInterface := ⟨"W", "W", 3, ["P"]⟩

/-- The single class-2 device of node 1. -/
def devD1 : FabricInterface := ⟨"D1", "D1", 2, ["P"]⟩

/-- The single class-2 device of node 2. -/
def devD2 : FabricInterface := ⟨"D2", "D2", 2, ["P"]⟩

/-- Engine where node 0 has no class-2 device while nodes 1 and 2 hold one
live class-2 device each. -/
def nFall : NUMAFabric :=
  ⟨[(0, [devW]), (1, [devD1]), (2, [devD2])], fun _ => 0, 0, none, some osLive⟩

/-- Lookup under which interface "A" has no addresses and every other
interface has one live address. -/
def osSkip : String → Except String addrFI := fun name =>
  if name = "A" then Except.ok ⟨Except.ok []⟩
  else Except.ok ⟨Except.ok [NetAddr.ipNet true false]⟩

/-- Engine whose node 0 holds A (dead) and B (live). -/
def nSkip : NUMAFabric := ⟨[(0, [devA, devB])], fun _ => 0, 0, none, some osSkip⟩

/-- Engine whose node 0 holds only the dead device A. -/
def nDead : NUMAFabric := ⟨[(0, [devA])], fun _ => 0, 0, none, some osSkip⟩

/-- A Manual-class device with an empty provider set. -/
def devMan : FabricInterface := ⟨"ib0", "ib0", FabricDevClassManual, []⟩

/-- Engine whose node 0 holds only the Manual device. -/
def nManual : NUMAFabric := ⟨[(0, [devMan])], fun _ => 0, 0, none, some osLive⟩

/-- Entry "ib0" with domain "ib0" supporting provider "verbs". -/
def e1ib0 : FabricInterface := ⟨"ib0", "ib0", 2, ["verbs"]⟩

/-- Entry "ib0" with domain "ib0d1" supporting provider "tcp". -/
def e2ib0 : FabricInterface := ⟨"ib0", "ib0d1", 2, ["tcp"]⟩

/-- Engine holding the two "ib0" entries for the FindDevice scenario. -/
def nFD : NUMAFabric := ⟨[(0, [e1ib0, e2ib0])], fun _ => 0, 0, none, some osLive⟩

/-- Engine with one live matching device and an unset (nil) address
lookup, exhibiting the lazy initialization in `validateDevice`. -/
def nLazy : NUMAFabric := ⟨[(0, [devA])], fun _ => 0, 0, none, none⟩

/-- System-name validator accepting every name. -/
def sysOK : String → Bool := fun _ => true

/-- Config with both exclude and include fabric-interface sets non-empty. -/
def cfgBoth : Config := ⟨"daos", 0, false, 0, ["eth0"], ["eth1"]⟩

/-- Config with only the exclude fabric-interface set non-empty. -/
def cfgExcl : Config := ⟨"daos", 0, false, 0, ["eth0"], []⟩
/-- The state returned by `validateDevice`: unchanged when the lookup is
set, otherwise the engine with the lookup lazily initialized. -/
theorem validateDevice_snd (gfi : String → Except String addrFI)
    (n : NUMAFabric) (fi : FabricInterface) :
    (NUMAFabric.validateDevice gfi n fi).2 =
      (match n.getAddrInterface with
       | some _ => n
       | none => { n with getAddrInterface := some gfi }) := by
  unfold NUMAFabric.validateDevice
  cases h : n.getAddrInterface <;> dsimp <;> (repeat' split) <;> rfl

theorem validateDevice_snd_some (gfi : String → Except String addrFI)
    (n : NUMAFabric) (fi : FabricInterface)
    (v : String → Except String addrFI) (hv : n.getAddrInterface = some v) :
    (NUMAFabric.validateDevice gfi n fi).2 = n := by
  rw [validateDevice_snd, hv]

/-- The result of `validateDevice` depends only on the engine's address
lookup. -/
theorem validateDevice_fst_congr (gfi : String → Except String addrFI)
    (n m : NUMAFabric) (fi : FabricInterface)
    (h : n.getAddrInterface = m.getAddrInterface) :
    (NUMAFabric.validateDevice gfi n fi).1 =
    (NUMAFabric.validateDevice gfi m fi).1 := by
  unfold NUMAFabric.validateDevice
  rw [h]
  cases m.getAddrInterface <;> dsimp <;> (repeat' split) <;> rfl


theorem getNumDevices_eq (n : NUMAFabric) (node : Int)
    (devs : List FabricInterface) (hmap : mapGet n.numaMap node = some devs) :
    n.getNumDevices node = devs.length := by
  unfold NUMAFabric.getNumDevices
  rw [hmap]

theorem getNextDevIndex_pos (n : NUMAFabric) (node : Int)
    (h : 0 < n.getNumDevices node) :
    n.getNextDevIndex node =
      (Except.ok (n.currentNumaDevIdx node),
       { n with currentNumaDevIdx := fun k =>
           if k = node then
             (n.currentNumaDevIdx node + 1) % n.getNumDevices node
           else n.currentNumaDevIdx k }) := by
  unfold NUMAFabric.getNextDevIndex
  rw [if_pos h]

theorem getNextDevice_sel (n : NUMAFabric) (node : Int)
    (devs : List FabricInterface) (hmap : mapGet n.numaMap node = some devs)
    (hc : n.currentNumaDevIdx node < devs.length) :
    n.getNextDevice node =
      (Except.ok (devs.get ⟨n.currentNumaDevIdx node, hc⟩),
       { n with currentNumaDevIdx := fun k =>
           if k = node then (n.currentNumaDevIdx node + 1) % devs.length
           else n.currentNumaDevIdx k }) := by
  have hnum := getNumDevices_eq n node devs hmap
  have hpos : 0 < n.getNumDevices node := by
    rw [hnum]
    exact Nat.lt_of_le_of_lt (Nat.zero_le _) hc
  unfold NUMAFabric.getNextDevice
  rw [getNextDevIndex_pos n node hpos]
  dsimp only
  rw [hmap]
  dsimp only [Option.getD]
  rw [List.get?_eq_get hc, hnum]

theorem scanNUMA_succ_sel (gfi v : String → Except String addrFI)
    (n : NUMAFabric) (node : Int) (devs : List FabricInterface)
    (cls : NetDevClass) (prov : String) (f : Nat)
    (hmap : mapGet n.numaMap node = some devs)
    (hv : n.getAddrInterface = some v)
    (hc : n.currentNumaDevIdx node < devs.length)
    (helig : eligibleB gfi n cls prov
      (devs.get ⟨n.currentNumaDevIdx node, hc⟩) = true) :
    NUMAFabric.scanNUMA gfi node cls prov n (f + 1) =
      (Except.ok (devs.get ⟨n.currentNumaDevIdx node, hc⟩),
       { n with currentNumaDevIdx := fun k =>
           if k = node then (n.currentNumaDevIdx node + 1) % devs.length
           else n.currentNumaDevIdx k }) := by
  have hsel := getNextDevice_sel n node devs hmap hc
  rw [eligibleB, Bool.and_eq_true, Bool.and_eq_true] at helig
  obtain ⟨⟨hfilt, hclass⟩, hval⟩ := helig
  rw [Bool.not_eq_true'] at hfilt
  set c := n.currentNumaDevIdx node with hcdef
  set fi := devs.get ⟨c, hc⟩ with hfidef
  set n1 : NUMAFabric :=
    { n with currentNumaDevIdx := fun k =>
        if k = node then (c + 1) % devs.length
        else n.currentNumaDevIdx k } with hn1
  have hfe : n1.ifaceFilter = n.ifaceFilter := rfl
  have hae : n1.getAddrInterface = n.getAddrInterface := rfl
  rw [NUMAFabric.scanNUMA, hsel]
  dsimp only
  rw [if_neg (by rw [hfe, hfilt]; exact Bool.false_ne_true)]
  have hval' : (NUMAFabric.validateDevice gfi n fi).1 = Except.ok () := by
    cases h : (NUMAFabric.validateDevice gfi n fi).1 with
    | ok u => cases u; rfl
    | error e => rw [h] at hval; exact absurd hval (by simp)
  have hfst : (NUMAFabric.validateDevice gfi n1 fi).1 = Except.ok () := by
    rw [validateDevice_fst_congr gfi n1 n fi hae]; exact hval'
  have hsnd : (NUMAFabric.validateDevice gfi n1 fi).2 = n1 :=
    validateDevice_snd_some gfi n1 fi v (hae.trans hv)
  have hvd : NUMAFabric.validateDevice gfi n1 fi = (Except.ok (), n1) := by
    rw [show NUMAFabric.validateDevice gfi n1 fi =
      ((NUMAFabric.validateDevice gfi n1 fi).1,
       (NUMAFabric.validateDevice gfi n1 fi).2) from rfl, hfst, hsnd]
  rw [Bool.or_eq_true] at hclass
  rcases hclass with hman | hboth
  · have hman' := of_decide_eq_true hman
    rw [if_neg (fun h => h.1 hman'), if_neg (fun h => h.1 hman'), hvd]
  · rw [Bool.and_eq_true] at hboth
    obtain ⟨hcls, hprovd⟩ := hboth
    have hcls' := of_decide_eq_true hcls
    rw [if_neg (fun h => h.2 hcls'), if_neg (fun h => h.2 hprovd), hvd]

theorem scanNUMA_pos_sel (gfi v : String → Except String addrFI)
    (n : NUMAFabric) (node : Int) (devs : List FabricInterface)
    (cls : NetDevClass) (prov : String) (f : Nat) (hf : 0 < f)
    (hmap : mapGet n.numaMap node = some devs)
    (hv : n.getAddrInterface = some v)
    (hc : n.currentNumaDevIdx node < devs.length)
    (helig : eligibleB gfi n cls prov
      (devs.get ⟨n.currentNumaDevIdx node, hc⟩) = true) :
    NUMAFabric.scanNUMA gfi node cls prov n f =
      (Except.ok (devs.get ⟨n.currentNumaDevIdx node, hc⟩),
       { n with currentNumaDevIdx := fun k =>
           if k = node then (n.currentNumaDevIdx node + 1) % devs.length
           else n.currentNumaDevIdx k }) := by
  obtain ⟨m, hm⟩ : ∃ m, f = m + 1 := ⟨f - 1, (Nat.succ_pred_eq_of_pos hf).symm⟩
  subst hm
  exact scanNUMA_succ_sel gfi v n node devs cls prov m hmap hv hc helig

theorem GetDevice_step (gfi v : String → Except String addrFI)
    (n : NUMAFabric) (node : Int) (devs : List FabricInterface)
    (iface dom : String) (cls : NetDevClass) (prov : String)
    (hmap : mapGet n.numaMap node = some devs)
    (hv : n.getAddrInterface = some v)
    (hprov : prov ≠ "")
    (hc : n.currentNumaDevIdx node < devs.length)
    (helig : eligibleB gfi n cls prov
      (devs.get ⟨n.currentNumaDevIdx node, hc⟩) = true) :
    NUMAFabric.GetDevice gfi n ⟨iface, dom, prov, cls, node⟩ =
      (Except.ok (copyFI (devs.get ⟨n.currentNumaDevIdx node, hc⟩)),
       { n with currentNumaDevIdx := fun k =>
           if k = node then (n.currentNumaDevIdx node + 1) % devs.length
           else n.currentNumaDevIdx k }) := by
  have hnum := getNumDevices_eq n node devs hmap
  have hlen : 0 < devs.length := Nat.lt_of_le_of_lt (Nat.zero_le _) hc
  unfold NUMAFabric.GetDevice
  rw [if_neg (by exact hprov)]
  unfold NUMAFabric.getDeviceFromNUMA
  dsimp only
  rw [hnum, scanNUMA_pos_sel gfi v n node devs cls prov devs.length hlen
    hmap hv hc helig]

theorem copyFI_eq (fi : FabricInterface) : copyFI fi = fi := rfl

theorem eligibleB_congr (gfi : String → Except String addrFI)
    (n m : NUMAFabric) (cls : NetDevClass) (prov : String)
    (fi : FabricInterface)
    (h1 : n.ifaceFilter = m.ifaceFilter)
    (h2 : n.getAddrInterface = m.getAddrInterface) :
    eligibleB gfi n cls prov fi = eligibleB gfi m cls prov fi := by
  unfold eligibleB
  rw [h1, validateDevice_fst_congr gfi n m fi h2]

theorem get_idx_congr {α : Type} (l : List α) (i j : Nat)
    (hi : i < l.length) (hj : j < l.length) (h : i = j) :
    l.get ⟨i, hi⟩ = l.get ⟨j, hj⟩ := by
  subst h
  rfl

theorem getDeviceN_round_robin (gfi v : String → Except String addrFI)
    (node : Int) (devs : List FabricInterface)
    (iface dom : String) (cls : NetDevClass) (prov : String)
    (hprov : prov ≠ "") (count : Nat) :
    ∀ (n : NUMAFabric), mapGet n.numaMap node = some devs →
      n.getAddrInterface = some v →
      (∀ fi ∈ devs, eligibleB gfi n cls prov fi = true) →
      ∀ (hc : n.currentNumaDevIdx node < devs.length),
      ∀ i, (hi : i < count) →
      ((NUMAFabric.getDeviceN gfi ⟨iface, dom, prov, cls, node⟩ n count).1).get? i
        = some (Except.ok (devs.get
            ⟨(n.currentNumaDevIdx node + i) % devs.length,
             Nat.mod_lt _ (Nat.lt_of_le_of_lt (Nat.zero_le _) hc)⟩)) := by
  induction count with
  | zero => intro n _ _ _ _ i hi; exact absurd hi (Nat.not_lt_zero i)
  | succ m ih =>
    intro n hmap hv helig hc i hi
    have hlen : 0 < devs.length := Nat.lt_of_le_of_lt (Nat.zero_le _) hc
    have hstep := GetDevice_step gfi v n node devs iface dom cls prov
      hmap hv hprov hc (helig _ (devs.get_mem _ _))
    rw [NUMAFabric.getDeviceN, hstep]
    dsimp only
    set n1 : NUMAFabric :=
      { n with currentNumaDevIdx := fun k =>
          if k = node then (n.currentNumaDevIdx node + 1) % devs.length
          else n.currentNumaDevIdx k } with hn1
    cases i with
    | zero =>
      dsimp only [List.get?]
      rw [copyFI_eq, get_idx_congr devs _ _
        (Nat.mod_lt _ hlen) (Nat.mod_lt _ hlen)
        (by rw [Nat.add_zero])]
      rw [get_idx_congr devs _ _ (Nat.mod_lt _ hlen) hc (Nat.mod_eq_of_lt hc)]
    | succ j =>
      dsimp only [List.get?]
      have hmap1 : mapGet n1.numaMap node = some devs := hmap
      have hv1 : n1.getAddrInterface = some v := hv
      have helig1 : ∀ fi ∈ devs, eligibleB gfi n1 cls prov fi = true := by
        intro fi hfi
        rw [eligibleB_congr gfi n1 n cls prov fi rfl rfl]
        exact helig fi hfi
      have hc1 : n1.currentNumaDevIdx node < devs.length := by
        show (if node = node then _ else _) < devs.length
        rw [if_pos rfl]
        exact Nat.mod_lt _ hlen
      have := ih n1 hmap1 hv1 helig1 hc1 j (Nat.lt_of_succ_lt_succ hi)
      rw [this]
      congr 2
      apply get_idx_congr
      have hcv : n1.currentNumaDevIdx node
          = (n.currentNumaDevIdx node + 1) % devs.length := by
        show (if node = node then _ else _) = _
        rw [if_pos rfl]
      rw [hcv, Nat.mod_add_mod]
      congr 1
      omega

theorem getNextDevice_snd (n : NUMAFabric) (node : Int) :
    ((n.getNextDevice node).2).numaMap = n.numaMap ∧
    ((n.getNextDevice node).2).ifaceFilter = n.ifaceFilter ∧
    ((n.getNextDevice node).2).currentNUMANode = n.currentNUMANode ∧
    (∀ k, k ≠ node →
      ((n.getNextDevice node).2).currentNumaDevIdx k = n.currentNumaDevIdx k) ∧
    ((n.getNextDevice node).2).getAddrInterface = n.getAddrInterface := by
  unfold NUMAFabric.getNextDevice NUMAFabric.getNextDevIndex
  dsimp only
  by_cases h : 0 < n.getNumDevices node
  · rw [if_pos h]
    dsimp only
    split
    · exact ⟨rfl, rfl, rfl, fun k hk => by dsimp only; rw [if_neg hk], rfl⟩
    · exact ⟨rfl, rfl, rfl, fun k hk => by dsimp only; rw [if_neg hk], rfl⟩
  · rw [if_neg h]
    exact ⟨rfl, rfl, rfl, fun _ _ => rfl, rfl⟩

theorem validateDevice_state (gfi : String → Except String addrFI)
    (n : NUMAFabric) (fi : FabricInterface) :
    ((NUMAFabric.validateDevice gfi n fi).2).numaMap = n.numaMap ∧
    ((NUMAFabric.validateDevice gfi n fi).2).ifaceFilter = n.ifaceFilter ∧
    ((NUMAFabric.validateDevice gfi n fi).2).currentNUMANode
      = n.currentNUMANode ∧
    ((NUMAFabric.validateDevice gfi n fi).2).currentNumaDevIdx
      = n.currentNumaDevIdx ∧
    (∀ w, n.getAddrInterface = some w →
      ((NUMAFabric.validateDevice gfi n fi).2).getAddrInterface = some w) := by
  rw [validateDevice_snd]
  cases h : n.getAddrInterface <;> dsimp
  · exact ⟨rfl, rfl, rfl, rfl, fun w hw => Option.noConfusion hw⟩
  · exact ⟨rfl, rfl, rfl, rfl, fun w hw => h.trans hw⟩

theorem scanNUMA_state (gfi : String → Except String addrFI) (node : Int)
    (cls : NetDevClass) (prov : String) :
    ∀ (f : Nat) (n : NUMAFabric),
    ((NUMAFabric.scanNUMA gfi node cls prov n f).2).numaMap = n.numaMap ∧
    ((NUMAFabric.scanNUMA gfi node cls prov n f).2).ifaceFilter
      = n.ifaceFilter ∧
    ((NUMAFabric.scanNUMA gfi node cls prov n f).2).currentNUMANode
      = n.currentNUMANode ∧
    (∀ k, k ≠ node →
      ((NUMAFabric.scanNUMA gfi node cls prov n f).2).currentNumaDevIdx k
        = n.currentNumaDevIdx k) ∧
    (∀ w, n.getAddrInterface = some w →
      ((NUMAFabric.scanNUMA gfi node cls prov n f).2).getAddrInterface
        = some w) := by
  intro f
  induction f with
  | zero => exact fun n => ⟨rfl, rfl, rfl, fun _ _ => rfl, fun w hw => hw⟩
  | succ m ih =>
    intro n
    obtain ⟨g1, g2, g3, g4, g5⟩ := getNextDevice_snd n node
    rw [NUMAFabric.scanNUMA]
    rcases hgd : n.getNextDevice node with ⟨r, n1⟩
    rw [hgd] at g1 g2 g3 g4 g5
    cases r with
    | error e => exact ⟨g1, g2, g3, g4, fun w hw => g5 ▸ hw⟩
    | ok fi =>
      dsimp only
      split
      · obtain ⟨i1, i2, i3, i4, i5⟩ := ih n1
        exact ⟨i1.trans g1, i2.trans g2, i3.trans g3,
          fun k hk => (i4 k hk).trans (g4 k hk),
          fun w hw => i5 w (g5 ▸ hw)⟩
      · split
        · obtain ⟨i1, i2, i3, i4, i5⟩ := ih n1
          exact ⟨i1.trans g1, i2.trans g2, i3.trans g3,
            fun k hk => (i4 k hk).trans (g4 k hk),
            fun w hw => i5 w (g5 ▸ hw)⟩
        · split
          · obtain ⟨i1, i2, i3, i4, i5⟩ := ih n1
            exact ⟨i1.trans g1, i2.trans g2, i3.trans g3,
              fun k hk => (i4 k hk).trans (g4 k hk),
              fun w hw => i5 w (g5 ▸ hw)⟩
          · obtain ⟨v1, v2, v3, v4, v5⟩ := validateDevice_state gfi n1 fi
            rcases hvd : NUMAFabric.validateDevice gfi n1 fi with ⟨rv, n2⟩
            rw [hvd] at v1 v2 v3 v4 v5
            cases rv with
            | error e =>
              dsimp only
              obtain ⟨i1, i2, i3, i4, i5⟩ := ih n2
              refine ⟨(i1.trans v1).trans g1, (i2.trans v2).trans g2,
                (i3.trans v3).trans g3,
                fun k hk => ((i4 k hk).trans (congrFun v4 k)).trans (g4 k hk),
                fun w hw => i5 w (v5 w (g5 ▸ hw))⟩
            | ok u =>
              dsimp only
              exact ⟨v1.trans g1, v2.trans g2, v3.trans g3,
                fun k hk => (congrFun v4 k).trans (g4 k hk),
                fun w hw => v5 w (g5 ▸ hw)⟩

theorem getNumDevices_congr (n m : NUMAFabric) (h : m.numaMap = n.numaMap)
    (k : Int) : m.getNumDevices k = n.getNumDevices k := by
  unfold NUMAFabric.getNumDevices
  rw [h]

theorem cursorOK_of_eq (n m : NUMAFabric) (h1 : m.numaMap = n.numaMap)
    (h2 : m.currentNumaDevIdx = n.currentNumaDevIdx) (hcur : cursorOK n) :
    cursorOK m := by
  intro k hk
  rw [getNumDevices_congr n m h1 k] at hk ⊢
  rw [h2]
  exact hcur k hk

theorem cursorOK_bump (n : NUMAFabric) (node : Int) (val : Nat)
    (hval : val < n.getNumDevices node) (hcur : cursorOK n) :
    cursorOK { n with currentNumaDevIdx := fun k =>
      if k = node then val else n.currentNumaDevIdx k } := by
  intro k hk
  have hk' : 0 < n.getNumDevices k := hk
  show (if k = node then val else n.currentNumaDevIdx k) < _
  by_cases hkn : k = node
  · rw [if_pos hkn]
    subst hkn
    exact hval
  · rw [if_neg hkn]
    exact hcur k hk'

theorem scanNUMA_error (gfi : String → Except String addrFI) (node : Int)
    (cls : NetDevClass) (prov : String) :
    ∀ (f : Nat) (n : NUMAFabric), cursorOK n →
      f ≤ n.getNumDevices node →
      ∀ e s, NUMAFabric.scanNUMA gfi node cls prov n f = (Except.error e, s) →
        e = FabricErr.notFound cls ∧
        s.currentNumaDevIdx node
          = (n.currentNumaDevIdx node + f) % n.getNumDevices node := by
  intro f
  induction f with
  | zero =>
    intro n hcur _ e s hscan
    rw [NUMAFabric.scanNUMA] at hscan
    obtain ⟨he, hs⟩ := Prod.mk.injEq _ _ _ _ ▸ hscan
    cases he
    refine ⟨rfl, ?_⟩
    rw [← hs, Nat.add_zero]
    rcases Nat.eq_zero_or_pos (n.getNumDevices node) with h0 | h0
    · rw [h0, Nat.mod_zero]
    · rw [Nat.mod_eq_of_lt (hcur node h0)]
  | succ m ih =>
    intro n hcur hfuel e s hscan
    have hpos : 0 < n.getNumDevices node :=
      Nat.lt_of_lt_of_le (Nat.succ_pos m) hfuel
    cases hmap : mapGet n.numaMap node with
    | none =>
      rw [NUMAFabric.getNumDevices, hmap] at hpos
      exact absurd hpos (Nat.lt_irrefl 0)
    | some devs =>
      have hnum : n.getNumDevices node = devs.length :=
        getNumDevices_eq n node devs hmap
      have hc : n.currentNumaDevIdx node < devs.length := by
        rw [← hnum]
        exact hcur node hpos
      have hlen : 0 < devs.length := Nat.lt_of_le_of_lt (Nat.zero_le _) hc
      rw [NUMAFabric.scanNUMA, getNextDevice_sel n node devs hmap hc] at hscan
      dsimp only at hscan
      set c := n.currentNumaDevIdx node with hcdef
      set n1 : NUMAFabric :=
        { n with currentNumaDevIdx := fun k =>
            if k = node then (c + 1) % devs.length
            else n.currentNumaDevIdx k } with hn1
      have hcur1 : cursorOK n1 := by
        apply cursorOK_bump n node ((c + 1) % devs.length) _ hcur
        rw [hnum]
        exact Nat.mod_lt _ hlen
      have hnum1 : n1.getNumDevices node = devs.length := hnum
      have hfuel1 : m ≤ n1.getNumDevices node := by
        rw [hnum1]
        rw [hnum] at hfuel
        omega
      have hc1 : n1.currentNumaDevIdx node = (c + 1) % devs.length := by
        show (if node = node then _ else _) = _
        rw [if_pos rfl]
      split at hscan
      · obtain ⟨he, hcv⟩ := ih n1 hcur1 hfuel1 e s hscan
        refine ⟨he, ?_⟩
        rw [hcv, hc1, hnum1, hnum, Nat.mod_add_mod]
        congr 1
        omega
      · split at hscan
        · obtain ⟨he, hcv⟩ := ih n1 hcur1 hfuel1 e s hscan
          refine ⟨he, ?_⟩
          rw [hcv, hc1, hnum1, hnum, Nat.mod_add_mod]
          congr 1
          omega
        · split at hscan
          · obtain ⟨he, hcv⟩ := ih n1 hcur1 hfuel1 e s hscan
            refine ⟨he, ?_⟩
            rw [hcv, hc1, hnum1, hnum, Nat.mod_add_mod]
            congr 1
            omega
          · obtain ⟨v1, v2, v3, v4, v5⟩ := validateDevice_state gfi n1
              (devs.get ⟨c, hc⟩)
            rcases hvd : NUMAFabric.validateDevice gfi n1 (devs.get ⟨c, hc⟩)
              with ⟨rv, n2⟩
            rw [hvd] at hscan v1 v2 v3 v4 v5
            cases rv with
            | ok u => simp at hscan
            | error e2 =>
              dsimp only at hscan
              have hcur2 : cursorOK n2 := cursorOK_of_eq n1 n2 v1 v4 hcur1
              have hfuel2 : m ≤ n2.getNumDevices node := by
                rw [getNumDevices_congr n1 n2 v1 node]
                exact hfuel1
              obtain ⟨he, hcv⟩ := ih n2 hcur2 hfuel2 e s hscan
              refine ⟨he, ?_⟩
              rw [hcv, getNumDevices_congr n1 n2 v1 node, congrFun v4 node,
                hc1, hnum1, hnum, Nat.mod_add_mod]
              congr 1
              omega

theorem getDeviceFromNUMA_error (gfi : String → Except String addrFI)
    (n : NUMAFabric) (node : Int) (cls : NetDevClass) (prov : String)
    (hcur : cursorOK n) (e : FabricErr) (s : NUMAFabric)
    (h : NUMAFabric.getDeviceFromNUMA gfi n node cls prov
      = (Except.error e, s)) :
    e = FabricErr.notFound cls ∧
    s.currentNumaDevIdx node = n.currentNumaDevIdx node := by
  unfold NUMAFabric.getDeviceFromNUMA at h
  obtain ⟨he, hcv⟩ := scanNUMA_error gfi node cls prov
    (n.getNumDevices node) n hcur (Nat.le_refl _) e s h
  refine ⟨he, ?_⟩
  rw [hcv]
  rcases Nat.eq_zero_or_pos (n.getNumDevices node) with h0 | h0
  · rw [h0, Nat.mod_zero, Nat.add_zero]
  · rw [Nat.add_mod_right]
    exact Nat.mod_eq_of_lt (hcur node h0)

theorem findLoop_error (gfi : String → Except String addrFI)
    (nodes : List Int) (cls : NetDevClass) (prov : String) :
    ∀ (rem : Nat) (n : NUMAFabric), cursorOK n → rem ≤ nodes.length →
    ∀ e s, NUMAFabric.findLoop gfi nodes cls prov n rem = (Except.error e, s) →
      e = FabricErr.notFound cls ∧
      (∀ k, s.currentNumaDevIdx k = n.currentNumaDevIdx k) ∧
      s.currentNUMANode = (if rem = 0 then n.currentNUMANode
        else (n.currentNUMANode + rem) % nodes.length) ∧
      s.numaMap = n.numaMap ∧ s.ifaceFilter = n.ifaceFilter := by
  intro rem
  induction rem with
  | zero =>
    intro n _ _ e s hloop
    rw [NUMAFabric.findLoop] at hloop
    obtain ⟨he, hs⟩ := Prod.mk.injEq _ _ _ _ ▸ hloop
    cases he
    rw [← hs]
    exact ⟨rfl, fun _ => rfl, by rw [if_pos rfl], rfl, rfl⟩
  | succ r ih =>
    intro n hcur hrem e s hloop
    have hlen : 0 < nodes.length :=
      Nat.lt_of_lt_of_le (Nat.succ_pos r) hrem
    have hidx : (n.currentNUMANode + 1) % nodes.length < nodes.length :=
      Nat.mod_lt _ hlen
    rw [NUMAFabric.findLoop] at hloop
    dsimp only at hloop
    rw [List.get?_eq_get hidx] at hloop
    dsimp only at hloop
    set c := n.currentNUMANode with hcdef
    set n1 : NUMAFabric :=
      { n with currentNUMANode := (c + 1) % nodes.length } with hn1
    set node := nodes.get ⟨(c + 1) % nodes.length, hidx⟩ with hnode
    have hcur1 : cursorOK n1 := cursorOK_of_eq n n1 rfl rfl hcur
    obtain ⟨t1, t2, t3, t4, t5⟩ :=
      scanNUMA_state gfi node cls prov (n1.getNumDevices node) n1
    rcases hgd : NUMAFabric.getDeviceFromNUMA gfi n1 node cls prov
      with ⟨r0, n2⟩
    have hgd' : NUMAFabric.scanNUMA gfi node cls prov n1
        (n1.getNumDevices node) = (r0, n2) := hgd
    rw [hgd'] at t1 t2 t3 t4
    rw [hgd] at hloop
    cases r0 with
    | ok fi => simp at hloop
    | error e0 =>
      obtain ⟨he0, hcv0⟩ := getDeviceFromNUMA_error gfi n1 node cls prov
        hcur1 e0 n2 hgd
      subst he0
      dsimp only at hloop
      have hcurs12 : n2.currentNumaDevIdx = n1.currentNumaDevIdx := by
        funext k
        by_cases hkn : k = node
        · rw [hkn]
          exact hcv0
        · exact t4 k hkn
      have hcur2 : cursorOK n2 := cursorOK_of_eq n1 n2 t1 hcurs12 hcur1
      obtain ⟨he, hks, hcross, hmap2, hfil2⟩ := ih n2 hcur2
        (Nat.le_of_succ_le hrem) e s hloop
      refine ⟨he, ?_, ?_, ?_, ?_⟩
      · intro k
        rw [hks k, congrFun hcurs12 k]
      · rw [hcross, if_neg (Nat.succ_ne_zero r)]
        have hc2 : n2.currentNUMANode = (c + 1) % nodes.length := t3
        cases Nat.eq_zero_or_pos r with
        | inl hr0 =>
          rw [if_pos hr0, hc2, hr0]
        | inr hrpos =>
          rw [if_neg (Nat.pos_iff_ne_zero.mp hrpos), hc2, Nat.mod_add_mod]
          congr 1
          omega
      · rw [hmap2, t1]
      · rw [hfil2, t2]

theorem nodesLength_eq (n : NUMAFabric) :
    n.getNUMANodes.length = n.numaMap.length := by
  unfold NUMAFabric.getNUMANodes
  rw [(List.perm_insertionSort _ _).length_eq, List.length_map]

theorem findOnAnyNUMA_error (gfi : String → Except String addrFI)
    (n : NUMAFabric) (cls : NetDevClass) (prov : String)
    (hcur : cursorOK n) (hx : crossOK n) (e : FabricErr) (s : NUMAFabric)
    (h : NUMAFabric.findOnAnyNUMA gfi n cls prov = (Except.error e, s)) :
    e = FabricErr.notFound cls ∧
    (∀ k, s.currentNumaDevIdx k = n.currentNumaDevIdx k) ∧
    s.currentNUMANode = n.currentNUMANode ∧
    s.numaMap = n.numaMap ∧ s.ifaceFilter = n.ifaceFilter := by
  unfold NUMAFabric.findOnAnyNUMA at h
  obtain ⟨he, hks, hcross, hm, hf⟩ := findLoop_error gfi n.getNUMANodes cls
    prov n.getNUMANodes.length n hcur (Nat.le_refl _) e s h
  refine ⟨he, hks, ?_, hm, hf⟩
  rcases Nat.eq_zero_or_pos n.getNUMANodes.length with h0 | h0
  · rw [hcross, if_pos h0]
  · rw [hcross, if_neg (Nat.pos_iff_ne_zero.mp h0), Nat.add_mod_right]
    apply Nat.mod_eq_of_lt
    rcases hx with hlt | hzero
    · rw [nodesLength_eq]
      exact hlt
    · rw [nodesLength_eq, hzero] at h0
      exact absurd h0 (Nat.lt_irrefl 0)

theorem GetDevice_error (gfi : String → Except String addrFI)
    (n : NUMAFabric) (p : FabricIfaceParams)
    (hcur : cursorOK n) (hx : crossOK n) (e : FabricErr) (s : NUMAFabric)
    (h : NUMAFabric.GetDevice gfi n p = (Except.error e, s)) :
    (e = FabricErr.providerRequired ∧ p.Provider = "" ∧ s = n) ∨
    (e = FabricErr.notFound p.DevClass ∧
     (∀ k, s.currentNumaDevIdx k = n.currentNumaDevIdx k) ∧
     s.currentNUMANode = n.currentNUMANode ∧
     s.numaMap = n.numaMap ∧ s.ifaceFilter = n.ifaceFilter) := by
  unfold NUMAFabric.GetDevice at h
  by_cases hp : p.Provider = ""
  · rw [if_pos hp] at h
    obtain ⟨he, hs⟩ := Prod.mk.injEq _ _ _ _ ▸ h
    injection he with he'
    exact Or.inl ⟨he'.symm, hp, hs.symm⟩
  · rw [if_neg hp] at h
    obtain ⟨t1, t2, t3, t4, t5⟩ := scanNUMA_state gfi p.NUMANode p.DevClass
      p.Provider (n.getNumDevices p.NUMANode) n
    rcases hgd : NUMAFabric.getDeviceFromNUMA gfi n p.NUMANode p.DevClass
      p.Provider with ⟨r1, n1⟩
    have hgd' : NUMAFabric.scanNUMA gfi p.NUMANode p.DevClass p.Provider n
        (n.getNumDevices p.NUMANode) = (r1, n1) := hgd
    rw [hgd'] at t1 t2 t3 t4
    have t5' := fun w hw => hgd' ▸ t5 w hw
    rw [hgd] at h
    cases r1 with
    | ok fi => simp at h
    | error e1 =>
      obtain ⟨he1, hcv1⟩ := getDeviceFromNUMA_error gfi n p.NUMANode p.DevClass
        p.Provider hcur e1 n1 hgd
      subst he1
      dsimp only at h
      have hcurs1 : n1.currentNumaDevIdx = n.currentNumaDevIdx := by
        funext k
        by_cases hkn : k = p.NUMANode
        · rw [hkn]
          exact hcv1
        · exact t4 k hkn
      have hcur1 : cursorOK n1 := cursorOK_of_eq n n1 t1 hcurs1 hcur
      have hx1 : crossOK n1 := by
        unfold crossOK
        rw [t1, t3]
        exact hx
      rcases hfa : NUMAFabric.findOnAnyNUMA gfi n1 p.DevClass p.Provider
        with ⟨r2, n2⟩
      rw [hfa] at h
      cases r2 with
      | ok fi => simp at h
      | error e2 =>
        obtain ⟨he2, hs2⟩ := Prod.mk.injEq _ _ _ _ ▸ h
        injection he2 with he2'
        obtain ⟨hee, hks, hcross, hm, hf⟩ := findOnAnyNUMA_error gfi n1
          p.DevClass p.Provider hcur1 hx1 e2 n2 hfa
        refine Or.inr ⟨he2'.symm.trans hee, ?_, ?_, ?_, ?_⟩
        · intro k
          rw [← hs2, hks k, congrFun hcurs1 k]
        · rw [← hs2, hcross, t3]
        · rw [← hs2, hm, t1]
        · rw [← hs2, hf, t2]

theorem findLoop_state (gfi : String → Except String addrFI)
    (nodes : List Int) (cls : NetDevClass) (prov : String) :
    ∀ (rem : Nat) (n : NUMAFabric),
    ((NUMAFabric.findLoop gfi nodes cls prov n rem).2).numaMap = n.numaMap ∧
    ((NUMAFabric.findLoop gfi nodes cls prov n rem).2).ifaceFilter
      = n.ifaceFilter ∧
    (∀ k, ¬ k ∈ nodes →
      ((NUMAFabric.findLoop gfi nodes cls prov n rem).2).currentNumaDevIdx k
        = n.currentNumaDevIdx k) ∧
    (∀ w, n.getAddrInterface = some w →
      ((NUMAFabric.findLoop gfi nodes cls prov n rem).2).getAddrInterface
        = some w) := by
  intro rem
  induction rem with
  | zero => exact fun n => ⟨rfl, rfl, fun _ _ => rfl, fun w hw => hw⟩
  | succ r ih =>
    intro n
    rw [NUMAFabric.findLoop]
    dsimp only
    cases hg : nodes.get? ((n.currentNUMANode + 1) % nodes.length) with
    | none => exact ⟨rfl, rfl, fun _ _ => rfl, fun w hw => hw⟩
    | some node =>
      have hmem : node ∈ nodes := List.get?_mem hg
      dsimp only
      set n1 : NUMAFabric :=
        { n with currentNUMANode := (n.currentNUMANode + 1) % nodes.length }
        with hn1
      obtain ⟨t1, t2, t3, t4, t5⟩ := scanNUMA_state gfi node cls prov
        (n1.getNumDevices node) n1
      rcases hgd : NUMAFabric.getDeviceFromNUMA gfi n1 node cls prov
        with ⟨r0, n2⟩
      have hgd' : NUMAFabric.scanNUMA gfi node cls prov n1
          (n1.getNumDevices node) = (r0, n2) := hgd
      rw [hgd'] at t1 t2 t3 t4
      have t5' := fun w hw => hgd' ▸ t5 w hw
      cases r0 with
      | ok fi =>
        exact ⟨t1, t2,
          fun k hk => t4 k (fun hkn => hk (hkn ▸ hmem)),
          fun w hw => t5' w hw⟩
      | error e0 =>
        cases e0 <;>
          first
          | exact ⟨t1, t2,
              fun k hk => t4 k (fun hkn => hk (hkn ▸ hmem)),
              fun w hw => t5' w hw⟩
          | exact ⟨(ih n2).1.trans t1, (ih n2).2.1.trans t2,
              fun k hk => ((ih n2).2.2.1 k hk).trans
                (t4 k (fun hkn => hk (hkn ▸ hmem))),
              fun w hw => (ih n2).2.2.2 w (t5' w hw)⟩

theorem GetDevice_localok (gfi : String → Except String addrFI)
    (n m : NUMAFabric) (p : FabricIfaceParams) (fi : FabricInterface)
    (hp : ¬ p.Provider = "")
    (h : NUMAFabric.getDeviceFromNUMA gfi n p.NUMANode p.DevClass p.Provider
      = (Except.ok fi, m)) :
    NUMAFabric.GetDevice gfi n p = (Except.ok (copyFI fi), m) := by
  unfold NUMAFabric.GetDevice
  rw [if_neg hp, h]

theorem GetDevice_state (gfi : String → Except String addrFI)
    (n : NUMAFabric) (p : FabricIfaceParams) :
    ((NUMAFabric.GetDevice gfi n p).2).numaMap = n.numaMap ∧
    ((NUMAFabric.GetDevice gfi n p).2).ifaceFilter = n.ifaceFilter ∧
    (∀ w, n.getAddrInterface = some w →
      ((NUMAFabric.GetDevice gfi n p).2).getAddrInterface = some w) ∧
    (∀ k, k ≠ p.NUMANode → ¬ k ∈ n.numaMap.map Prod.fst →
      ((NUMAFabric.GetDevice gfi n p).2).currentNumaDevIdx k
        = n.currentNumaDevIdx k) := by
  unfold NUMAFabric.GetDevice
  by_cases hp : p.Provider = ""
  · rw [if_pos hp]
    exact ⟨rfl, rfl, fun w hw => hw, fun _ _ _ => rfl⟩
  · rw [if_neg hp]
    obtain ⟨t1, t2, t3, t4, t5⟩ := scanNUMA_state gfi p.NUMANode p.DevClass
      p.Provider (n.getNumDevices p.NUMANode) n
    rcases hgd : NUMAFabric.getDeviceFromNUMA gfi n p.NUMANode p.DevClass
      p.Provider with ⟨r1, n1⟩
    have hgd' : NUMAFabric.scanNUMA gfi p.NUMANode p.DevClass p.Provider n
        (n.getNumDevices p.NUMANode) = (r1, n1) := hgd
    rw [hgd'] at t1 t2 t3 t4
    have t5' := fun w hw => hgd' ▸ t5 w hw
    cases r1 with
    | ok fi => exact ⟨t1, t2, fun w hw => t5' w hw, fun k hk _ => t4 k hk⟩
    | error e1 =>
      cases e1 <;>
        first
        | exact ⟨t1, t2, fun w hw => t5' w hw, fun k hk _ => t4 k hk⟩
        | · dsimp only
            rcases hfa : NUMAFabric.findOnAnyNUMA gfi n1 p.DevClass p.Provider
              with ⟨r2, n2⟩
            have hfa' : NUMAFabric.findLoop gfi n1.getNUMANodes p.DevClass
                p.Provider n1 n1.getNUMANodes.length = (r2, n2) := hfa
            obtain ⟨f1, f2, f3, f4⟩ := findLoop_state gfi n1.getNUMANodes
              p.DevClass p.Provider n1.getNUMANodes.length n1
            rw [hfa'] at f1 f2
            have f3' := fun k hk => hfa' ▸ f3 k hk
            have f4' := fun w hw => hfa' ▸ f4 w hw
            have hknodes : ∀ k, ¬ k ∈ n.numaMap.map Prod.fst →
                ¬ k ∈ n1.getNUMANodes := by
              intro k hk hin
              apply hk
              have hsub : k ∈ n1.numaMap.map Prod.fst :=
                (List.perm_insertionSort (· ≤ ·)
                  (n1.numaMap.map Prod.fst)).subset hin
              rw [t1] at hsub
              exact hsub
            cases r2 <;>
              exact ⟨f1.trans t1, f2.trans t2,
                fun w hw => f4' w (t5' w hw),
                fun k hk1 hk2 => (f3' k (hknodes k hk2)).trans (t4 k hk1)⟩

theorem getNextDevice_fst_cases (n : NUMAFabric) (node : Int)
    (h : 0 < n.getNumDevices node) :
    (∃ fi, (n.getNextDevice node).1 = Except.ok fi) ∨
    (n.getNextDevice node).1 = Except.error FabricErr.fatalIndexOutOfRange := by
  unfold NUMAFabric.getNextDevice
  rw [NUMAFabric.getNextDevIndex]
  dsimp only
  rw [if_pos h]
  dsimp only
  cases hget : ((mapGet n.numaMap node).getD []).get? (n.currentNumaDevIdx node) with
  | none => exact Or.inr rfl
  | some fi => exact Or.inl ⟨fi, rfl⟩

theorem scanNUMA_no_noDevices (gfi : String → Except String addrFI)
    (node : Int) (cls : NetDevClass) (prov : String) :
    ∀ (f : Nat) (n : NUMAFabric), f ≤ n.getNumDevices node →
    ∀ z s, NUMAFabric.scanNUMA gfi node cls prov n f
      = (Except.error (FabricErr.fatalNoDevices z), s) → False := by
  intro f
  induction f with
  | zero =>
    intro n _ z s hscan
    rw [NUMAFabric.scanNUMA] at hscan
    obtain ⟨he, _⟩ := Prod.mk.injEq _ _ _ _ ▸ hscan
    injection he with he'
    cases he'
  | succ m ih =>
    intro n hfuel z s hscan
    have hpos : 0 < n.getNumDevices node :=
      Nat.lt_of_lt_of_le (Nat.succ_pos m) hfuel
    obtain ⟨g1, g2, g3, g4, g5⟩ := getNextDevice_snd n node
    have hcases := getNextDevice_fst_cases n node hpos
    rw [NUMAFabric.scanNUMA] at hscan
    rcases hnd : n.getNextDevice node with ⟨rd, n1⟩
    rw [hnd] at hscan g1 g2 g3 g4 g5 hcases
    have hfuel1 : m ≤ n1.getNumDevices node := by
      rw [getNumDevices_congr n n1 g1 node]
      exact Nat.le_of_succ_le hfuel
    cases rd with
    | error e =>
      dsimp only at hscan
      obtain ⟨he, _⟩ := Prod.mk.injEq _ _ _ _ ▸ hscan
      injection he with he'
      rcases hcases with ⟨fi, hfi⟩ | hidx
      · exact Except.noConfusion hfi
      · injection hidx with hidx'
        exact FabricErr.noConfusion (hidx'.symm.trans he')
    | ok fi =>
      dsimp only at hscan
      split at hscan
      · exact ih n1 hfuel1 z s hscan
      · split at hscan
        · exact ih n1 hfuel1 z s hscan
        · split at hscan
          · exact ih n1 hfuel1 z s hscan
          · obtain ⟨v1, v2, v3, v4, v5⟩ := validateDevice_state gfi n1 fi
            rcases hvd : NUMAFabric.validateDevice gfi n1 fi with ⟨rv, n2⟩
            rw [hvd] at hscan v1 v2 v3 v4 v5
            cases rv with
            | ok u => simp at hscan
            | error e2 =>
              dsimp only at hscan
              have hfuel2 : m ≤ n2.getNumDevices node := by
                rw [getNumDevices_congr n1 n2 v1 node]
                exact hfuel1
              exact ih n2 hfuel2 z s hscan

theorem getDeviceFromNUMA_no_noDevices (gfi : String → Except String addrFI)
    (n : NUMAFabric) (node : Int) (cls : NetDevClass) (prov : String)
    (z : Int) (s : NUMAFabric)
    (h : NUMAFabric.getDeviceFromNUMA gfi n node cls prov
      = (Except.error (FabricErr.fatalNoDevices z), s)) : False :=
  scanNUMA_no_noDevices gfi node cls prov (n.getNumDevices node) n
    (Nat.le_refl _) z s h

theorem findLoop_no_noDevices (gfi : String → Except String addrFI)
    (nodes : List Int) (cls : NetDevClass) (prov : String) :
    ∀ (rem : Nat) (n : NUMAFabric),
    ∀ z s, NUMAFabric.findLoop gfi nodes cls prov n rem
      = (Except.error (FabricErr.fatalNoDevices z), s) → False := by
  intro rem
  induction rem with
  | zero =>
    intro n z s hloop
    rw [NUMAFabric.findLoop] at hloop
    obtain ⟨he, _⟩ := Prod.mk.injEq _ _ _ _ ▸ hloop
    injection he with he'
    cases he'
  | succ r ih =>
    intro n z s hloop
    rw [NUMAFabric.findLoop] at hloop
    dsimp only at hloop
    cases hg : nodes.get? ((n.currentNUMANode + 1) % nodes.length) with
    | none =>
      rw [hg] at hloop
      dsimp only at hloop
      obtain ⟨he, _⟩ := Prod.mk.injEq _ _ _ _ ▸ hloop
      injection he with he'
      cases he'
    | some node =>
      rw [hg] at hloop
      dsimp only at hloop
      rcases hgd : NUMAFabric.getDeviceFromNUMA gfi
        { n with currentNUMANode := (n.currentNUMANode + 1) % nodes.length }
        node cls prov with ⟨r0, n2⟩
      rw [hgd] at hloop
      cases r0 with
      | ok fi => simp at hloop
      | error e0 =>
        cases e0 with
        | fatalNoDevices m0 =>
          dsimp only at hloop
          obtain ⟨he, _⟩ := Prod.mk.injEq _ _ _ _ ▸ hloop
          injection he with he'
          injection he' with hm
          subst hm
          exact getDeviceFromNUMA_no_noDevices gfi _ node cls prov _ n2 hgd
        | fatalIndexOutOfRange =>
          dsimp only at hloop
          obtain ⟨he, _⟩ := Prod.mk.injEq _ _ _ _ ▸ hloop
          injection he with he'
          cases he'
        | providerRequired => dsimp only at hloop; exact ih n2 z s hloop
        | notFound c0 => dsimp only at hloop; exact ih n2 z s hloop
        | ifaceNotFound a => dsimp only at hloop; exact ih n2 z s hloop
        | domainNotFound a b => dsimp only at hloop; exact ih n2 z s hloop
        | providerNotSupported a b =>
          dsimp only at hloop
          exact ih n2 z s hloop

theorem GetDevice_no_noDevices (gfi : String → Except String addrFI)
    (n : NUMAFabric) (p : FabricIfaceParams) (z : Int) (s : NUMAFabric)
    (h : NUMAFabric.GetDevice gfi n p
      = (Except.error (FabricErr.fatalNoDevices z), s)) : False := by
  unfold NUMAFabric.GetDevice at h
  by_cases hp : p.Provider = ""
  · rw [if_pos hp] at h
    obtain ⟨he, _⟩ := Prod.mk.injEq _ _ _ _ ▸ h
    injection he with he'
    cases he'
  · rw [if_neg hp] at h
    rcases hgd : NUMAFabric.getDeviceFromNUMA gfi n p.NUMANode p.DevClass
      p.Provider with ⟨r1, n1⟩
    rw [hgd] at h
    cases r1 with
    | ok fi => simp at h
    | error e1 =>
      have hfall : ∀ hm : (match NUMAFabric.findOnAnyNUMA gfi n1 p.DevClass
            p.Provider with
          | (Except.ok fi, n2) => (Except.ok (copyFI fi), n2)
          | (Except.error e, n2) => (Except.error e, n2))
          = (Except.error (FabricErr.fatalNoDevices z), s), False := by
        intro hm
        rcases hfa : NUMAFabric.findOnAnyNUMA gfi n1 p.DevClass p.Provider
          with ⟨r2, n2⟩
        rw [hfa] at hm
        cases r2 with
        | ok fi => simp at hm
        | error e2 =>
          obtain ⟨he, _⟩ := Prod.mk.injEq _ _ _ _ ▸ hm
          injection he with he'
          subst he'
          exact findLoop_no_noDevices gfi n1.getNUMANodes p.DevClass
            p.Provider n1.getNUMANodes.length n1 z n2 hfa
      cases e1 with
      | fatalNoDevices m0 =>
        dsimp only at h
        obtain ⟨he, _⟩ := Prod.mk.injEq _ _ _ _ ▸ h
        injection he with he'
        injection he' with hm
        subst hm
        exact getDeviceFromNUMA_no_noDevices gfi n p.NUMANode p.DevClass
          p.Provider _ n1 hgd
      | fatalIndexOutOfRange =>
        dsimp only at h
        obtain ⟨he, _⟩ := Prod.mk.injEq _ _ _ _ ▸ h
        injection he with he'
        cases he'
      | providerRequired => dsimp only at h; exact hfall h
      | notFound c0 => dsimp only at h; exact hfall h
      | ifaceNotFound a => dsimp only at h; exact hfall h
      | domainNotFound a b => dsimp only at h; exact hfall h
      | providerNotSupported a b => dsimp only at h; exact hfall h

/-- C1: Round-robin on a single node: for an engine whose requested node
holds k devices, all eligible (filter-passing, class/provider-matching or
Manual) and live, the i-th of any run of successive GetDevice calls for
that (node, class, provider) returns the device at list position
(cursor + i) mod k — so k successive calls return all k devices exactly
once each, in list order starting from the node's current cursor, before
any repeat. -/
theorem c1_round_robin (gfi v : String → Except String addrFI)
    (n : NUMAFabric) (node : Int) (devs : List FabricInterface)
    (iface dom : String) (cls : NetDevClass) (prov : String)
    (hmap : mapGet n.numaMap node = some devs)
    (hv : n.getAddrInterface = some v)
    (hprov : prov ≠ "")
    (helig : ∀ fi ∈ devs, eligibleB gfi n cls prov fi = true)
    (hc : n.currentNumaDevIdx node < devs.length)
    (count i : Nat) (hi : i < count) :
    ((NUMAFabric.getDeviceN gfi ⟨iface, dom, prov, cls, node⟩ n count).1).get? i
      = some (Except.ok (devs.get
          ⟨(n.currentNumaDevIdx node + i) % devs.length,
           Nat.mod_lt _ (Nat.lt_of_le_of_lt (Nat.zero_le _) hc)⟩)) :=
  getDeviceN_round_robin gfi v node devs iface dom cls prov hprov count n
    hmap hv helig hc i hi

/-- C1 witness: on node 0 holding A, B, C (cursor 0), the fourth of four
consecutive calls returns A again, completing A, B, C, A. -/
theorem c1_witness :
    ((NUMAFabric.getDeviceN osLive ⟨"", "", "P", 2, 0⟩ nABC 4).1).get? 3
      = some (Except.ok ([devA, devB, devC].get
          ⟨(nABC.currentNumaDevIdx 0 + 3) % [devA, devB, devC].length,
           Nat.mod_lt _ (by decide)⟩)) :=
  c1_round_robin osLive osLive nABC 0 [devA, devB, devC] "" "" 2 "P"
    rfl rfl (by decide) (by decide) (by decide) 4 3 (by decide)

/-- C2: Cross-node fallback with fairness: the fallback iterates the
populated node ids in ascending (sorted) order, and in the concrete
scenario — node 0 without a class-2 device, nodes 1 and 2 with one live
class-2 device each — two consecutive GetDevice calls (both falling back)
return the node-1 device then the node-2 device, never the same one
twice, with the cross-node cursor updated to the position of the node
that yielded the device. -/
theorem c2_cross_node_fallback :
    (∀ m : NUMAFabric, List.Sorted (· ≤ ·) m.getNUMANodes) ∧
    nFall.getNUMANodes = [0, 1, 2] ∧
    (NUMAFabric.getDeviceN osLive pXP nFall 2).1
      = [Except.ok devD1, Except.ok devD2] ∧
    devD1 ≠ devD2 ∧
    ((NUMAFabric.GetDevice osLive nFall pXP).2).currentNUMANode = 1 ∧
    ((NUMAFabric.getDeviceN osLive pXP nFall 2).2).currentNUMANode = 2 := by
  refine ⟨?_, by decide, by decide, by decide, ?_, ?_⟩
  · intro m
    unfold NUMAFabric.getNUMANodes
    exact List.sorted_insertionSort _ _
  · rfl
  · rfl

/-- C3: Liveness failure is a per-candidate skip, never the final error:
for any engine in a reachable state and any request with a non-empty
provider, GetDevice either succeeds or fails with exactly the NotFound
error naming the requested device class — a validation failure is never
the returned error; concretely, with A dead and B live the scan skips A
and returns B, and with only the dead A it returns NotFound. -/
theorem c3_liveness_skip (gfi : String → Except String addrFI)
    (n : NUMAFabric) (p : FabricIfaceParams)
    (hcur : cursorOK n) (hx : crossOK n) (hp : p.Provider ≠ "") :
    ((∃ fi, (NUMAFabric.GetDevice gfi n p).1 = Except.ok fi) ∨
      (NUMAFabric.GetDevice gfi n p).1
        = Except.error (FabricErr.notFound p.DevClass)) ∧
    (NUMAFabric.GetDevice osSkip nSkip pXP).1 = Except.ok devB ∧
    (NUMAFabric.GetDevice osSkip nDead pXP).1
      = Except.error (FabricErr.notFound 2) := by
  refine ⟨?_, by decide, by decide⟩
  rcases h : NUMAFabric.GetDevice gfi n p with ⟨r, s⟩
  cases r with
  | ok fi =>
    left
    exact ⟨fi, rfl⟩
  | error e =>
    rcases GetDevice_error gfi n p hcur hx e s h with ⟨_, hpe, _⟩ | ⟨he, _⟩
    · exact absurd hpe hp
    · right
      rw [he]

/-- C3 witness: the theorem instantiated at the engine holding only the
dead device A. -/
theorem c3_witness :
    ((∃ fi, (NUMAFabric.GetDevice osSkip nDead pXP).1 = Except.ok fi) ∨
      (NUMAFabric.GetDevice osSkip nDead pXP).1
        = Except.error (FabricErr.notFound pXP.DevClass)) ∧
    (NUMAFabric.GetDevice osSkip nSkip pXP).1 = Except.ok devB ∧
    (NUMAFabric.GetDevice osSkip nDead pXP).1
      = Except.error (FabricErr.notFound 2) :=
  c3_liveness_skip osSkip nDead pXP (fun k hk => hk) (Or.inl (by decide))
    (by decide)

/-- C5: Manual bypass: a device of class FabricDevClassManual that sits at
the cursor, passes the filter, and validates as live is selected by
GetDevice for every requested class and (non-empty) provider, regardless
of its own (possibly empty) provider set. -/
theorem c5_manual_bypass (gfi v : String → Except String addrFI)
    (n : NUMAFabric) (node : Int) (devs : List FabricInterface)
    (iface dom : String) (cls : NetDevClass) (prov : String)
    (hmap : mapGet n.numaMap node = some devs)
    (hv : n.getAddrInterface = some v)
    (hprov : prov ≠ "")
    (hc : n.currentNumaDevIdx node < devs.length)
    (hman : (devs.get ⟨n.currentNumaDevIdx node, hc⟩).NetDevClass
      = FabricDevClassManual)
    (hfilt : ShouldIgnore n.ifaceFilter
      (devs.get ⟨n.currentNumaDevIdx node, hc⟩).Name = false)
    (hlive : (NUMAFabric.validateDevice gfi n
      (devs.get ⟨n.currentNumaDevIdx node, hc⟩)).1 = Except.ok ()) :
    (NUMAFabric.GetDevice gfi n ⟨iface, dom, prov, cls, node⟩).1
      = Except.ok (copyFI (devs.get ⟨n.currentNumaDevIdx node, hc⟩)) := by
  have helig : eligibleB gfi n cls prov
      (devs.get ⟨n.currentNumaDevIdx node, hc⟩) = true := by
    rw [eligibleB, hfilt, hman, hlive]
    simp
  rw [GetDevice_step gfi v n node devs iface dom cls prov hmap hv hprov hc
    helig]

/-- C5 witness: the Manual device "ib0" with no declared providers is
returned for the arbitrary request (class 7, provider "anyProvider"). -/
theorem c5_witness :
    (NUMAFabric.GetDevice osLive nManual ⟨"", "", "anyProvider", 7, 0⟩).1
      = Except.ok (copyFI ([devMan].get
          ⟨nManual.currentNumaDevIdx 0, by decide⟩)) :=
  c5_manual_bypass osLive osLive nManual 0 [devMan] "" "" 7 "anyProvider"
    rfl rfl (by decide) (by decide) (by decide) (by decide) (by decide)

/-- C10: Error atomicity of GetDevice: whenever GetDevice returns an
error, every per-node round-robin cursor and the cross-node cursor hold
the same values as before the call — each failed node scan advances the
node's cursor exactly its device count times (a full wrap), and a failed
fallback advances the cross-node cursor exactly the populated-node count
times modulo that count. -/
theorem c10_error_atomicity (gfi : String → Except String addrFI)
    (n : NUMAFabric) (p : FabricIfaceParams)
    (hcur : cursorOK n) (hx : crossOK n) (e : FabricErr)
    (he : (NUMAFabric.GetDevice gfi n p).1 = Except.error e) :
    (∀ k, ((NUMAFabric.GetDevice gfi n p).2).currentNumaDevIdx k
      = n.currentNumaDevIdx k) ∧
    ((NUMAFabric.GetDevice gfi n p).2).currentNUMANode
      = n.currentNUMANode := by
  have hpair : NUMAFabric.GetDevice gfi n p
      = (Except.error e, (NUMAFabric.GetDevice gfi n p).2) :=
    Prod.ext he rfl
  rcases GetDevice_error gfi n p hcur hx e
    (NUMAFabric.GetDevice gfi n p).2 hpair with ⟨_, _, hs⟩ | ⟨_, hks, hcross, _, _⟩
  · rw [hs]
    exact ⟨fun _ => rfl, rfl⟩
  · exact ⟨hks, hcross⟩

/-- C10 witness: a failing call on the engine holding only the dead
device A leaves node 0's cursor and the cross-node cursor unchanged. -/
theorem c10_witness :
    (((NUMAFabric.GetDevice osSkip nDead pXP).2).currentNumaDevIdx 0
      = nDead.currentNumaDevIdx 0) ∧
    ((NUMAFabric.GetDevice osSkip nDead pXP).2).currentNUMANode
      = nDead.currentNUMANode :=
  ⟨(c10_error_atomicity osSkip nDead pXP (fun k hk => hk)
      (Or.inl (by decide)) (FabricErr.notFound 2) (by decide)).1 0,
   (c10_error_atomicity osSkip nDead pXP (fun k hk => hk)
      (Or.inl (by decide)) (FabricErr.notFound 2) (by decide)).2⟩

/-- C6 counterexample: a successful GetDevice call on an engine whose
liveness lookup is unset (nil) mutates the engine's liveness-validation
function — validateDevice lazily installs the OS default — refuting the
claim that a successful call leaves every non-cursor component of engine
state unchanged. -/
theorem c6_counterexample :
    (NUMAFabric.GetDevice osLive nLazy pXP).1 = Except.ok devA ∧
    nLazy.getAddrInterface = none ∧
    ((NUMAFabric.GetDevice osLive nLazy pXP).2).getAddrInterface ≠ none := by
  refine ⟨by decide, rfl, ?_⟩
  rw [show ((NUMAFabric.GetDevice osLive nLazy pXP).2).getAddrInterface
    = some osLive from rfl]
  exact Option.some_ne_none _

/-- Success-path frame of the fallback loop: when `findLoop` returns a
device, there is a single selected node — a member of the node list —
outside of which every per-node round-robin cursor is unchanged: the
nodes visited before the success have their cursors restored by the full
wrap of their failed scans, and the successful node's scan touches no
other node's cursor. The inventory and the filter are unchanged too. -/
theorem findLoop_ok (gfi : String → Except String addrFI)
    (nodes : List Int) (cls : NetDevClass) (prov : String) :
    ∀ (rem : Nat) (n : NUMAFabric), cursorOK n →
    ∀ fi s, NUMAFabric.findLoop gfi nodes cls prov n rem
      = (Except.ok fi, s) →
      ∃ sel, sel ∈ nodes ∧
        (∀ k, k ≠ sel → s.currentNumaDevIdx k = n.currentNumaDevIdx k) ∧
        s.numaMap = n.numaMap ∧ s.ifaceFilter = n.ifaceFilter := by
  intro rem
  induction rem with
  | zero =>
    intro n _ fi s hloop
    rw [NUMAFabric.findLoop] at hloop
    obtain ⟨he, _⟩ := Prod.mk.injEq _ _ _ _ ▸ hloop
    exact Except.noConfusion he
  | succ r ih =>
    intro n hcur fi s hloop
    rw [NUMAFabric.findLoop] at hloop
    dsimp only at hloop
    cases hg : nodes.get? ((n.currentNUMANode + 1) % nodes.length) with
    | none =>
      rw [hg] at hloop
      dsimp only at hloop
      obtain ⟨he, _⟩ := Prod.mk.injEq _ _ _ _ ▸ hloop
      exact Except.noConfusion he
    | some node =>
      rw [hg] at hloop
      dsimp only at hloop
      have hmem : node ∈ nodes := List.get?_mem hg
      set n1 : NUMAFabric :=
        { n with currentNUMANode := (n.currentNUMANode + 1) % nodes.length }
        with hn1
      have hcur1 : cursorOK n1 := cursorOK_of_eq n n1 rfl rfl hcur
      obtain ⟨t1, t2, t3, t4, t5⟩ := scanNUMA_state gfi node cls prov
        (n1.getNumDevices node) n1
      rcases hgd : NUMAFabric.getDeviceFromNUMA gfi n1 node cls prov
        with ⟨r0, n2⟩
      have hgd' : NUMAFabric.scanNUMA gfi node cls prov n1
          (n1.getNumDevices node) = (r0, n2) := hgd
      rw [hgd'] at t1 t2 t3 t4
      rw [hgd] at hloop
      cases r0 with
      | ok fi0 =>
        dsimp only at hloop
        obtain ⟨he, hs⟩ := Prod.mk.injEq _ _ _ _ ▸ hloop
        refine ⟨node, hmem, ?_, ?_, ?_⟩
        · intro k hk
          rw [← hs]
          exact t4 k hk
        · rw [← hs]
          exact t1
        · rw [← hs]
          exact t2
      | error e0 =>
        obtain ⟨he0, hcv0⟩ := getDeviceFromNUMA_error gfi n1 node cls prov
          hcur1 e0 n2 hgd
        subst he0
        dsimp only at hloop
        have hcurs12 : n2.currentNumaDevIdx = n1.currentNumaDevIdx := by
          funext k
          by_cases hkn : k = node
          · rw [hkn]
            exact hcv0
          · exact t4 k hkn
        have hcur2 : cursorOK n2 := cursorOK_of_eq n1 n2 t1 hcurs12 hcur1
        obtain ⟨sel, hselmem, hks, hm2, hf2⟩ := ih n2 hcur2 fi s hloop
        refine ⟨sel, hselmem, ?_, hm2.trans t1, hf2.trans t2⟩
        intro k hk
        rw [hks k hk, congrFun hcurs12 k]

/-- C6 (amended): a successful GetDevice call on an engine in a reachable
state whose liveness lookup is set mutates only the selected node's
round-robin cursor and, on fallback, the cross-node cursor: the inventory
map, the device filter, and the liveness-validation function are
unchanged, and there is a single selected node — the requested node or a
populated one — outside of which every per-node cursor is unchanged
(nodes visited and failed during fallback are restored by their full
wrap, unvisited nodes are untouched); when the device came from the
local scan (no fallback), the selected node is the requested node and the
cross-node cursor is unchanged as well. -/
theorem c6_frame_amended (gfi v : String → Except String addrFI)
    (n : NUMAFabric) (p : FabricIfaceParams) (fi : FabricInterface)
    (hv : n.getAddrInterface = some v)
    (hcur : cursorOK n)
    (hok : (NUMAFabric.GetDevice gfi n p).1 = Except.ok fi) :
    ((NUMAFabric.GetDevice gfi n p).2).numaMap = n.numaMap ∧
    ((NUMAFabric.GetDevice gfi n p).2).ifaceFilter = n.ifaceFilter ∧
    ((NUMAFabric.GetDevice gfi n p).2).getAddrInterface
      = n.getAddrInterface ∧
    (∃ sel : Int,
      (sel = p.NUMANode ∨ sel ∈ n.numaMap.map Prod.fst) ∧
      (∀ k, k ≠ sel →
        ((NUMAFabric.GetDevice gfi n p).2).currentNumaDevIdx k
          = n.currentNumaDevIdx k) ∧
      ((∃ (m : NUMAFabric) (r : FabricInterface),
          NUMAFabric.getDeviceFromNUMA gfi n p.NUMANode p.DevClass
            p.Provider = (Except.ok r, m)) →
        sel = p.NUMANode ∧
        ((NUMAFabric.GetDevice gfi n p).2).currentNUMANode
          = n.currentNUMANode)) := by
  by_cases hp : p.Provider = ""
  · rw [show NUMAFabric.GetDevice gfi n p
      = (Except.error FabricErr.providerRequired, n) from by
        unfold NUMAFabric.GetDevice; rw [if_pos hp]] at hok
    exact absurd hok (by simp)
  · obtain ⟨t1, t2, t3, t4, t5⟩ := scanNUMA_state gfi p.NUMANode p.DevClass
      p.Provider (n.getNumDevices p.NUMANode) n
    rcases hgd : NUMAFabric.getDeviceFromNUMA gfi n p.NUMANode p.DevClass
      p.Provider with ⟨r1, n1⟩
    have hgd' : NUMAFabric.scanNUMA gfi p.NUMANode p.DevClass p.Provider n
        (n.getNumDevices p.NUMANode) = (r1, n1) := hgd
    rw [hgd'] at t1 t2 t3 t4
    have t5' := fun w hw => hgd' ▸ t5 w hw
    cases r1 with
    | ok r =>
      have hcall := GetDevice_localok gfi n n1 p r hp hgd
      rw [hcall]
      exact ⟨t1, t2, (t5' v hv).trans hv.symm,
        p.NUMANode, Or.inl rfl, fun k hk => t4 k hk, fun _ => ⟨rfl, t3⟩⟩
    | error e1 =>
      obtain ⟨he1, hcv1⟩ := getDeviceFromNUMA_error gfi n p.NUMANode
        p.DevClass p.Provider hcur e1 n1 hgd
      subst he1
      have hcurs1 : n1.currentNumaDevIdx = n.currentNumaDevIdx := by
        funext k
        by_cases hkn : k = p.NUMANode
        · rw [hkn]
          exact hcv1
        · exact t4 k hkn
      have hcur1 : cursorOK n1 := cursorOK_of_eq n n1 t1 hcurs1 hcur
      have hGD : NUMAFabric.GetDevice gfi n p =
          (match NUMAFabric.findOnAnyNUMA gfi n1 p.DevClass p.Provider with
           | (Except.ok fi2, n2) => (Except.ok (copyFI fi2), n2)
           | (Except.error e, n2) => (Except.error e, n2)) := by
        unfold NUMAFabric.GetDevice
        rw [if_neg hp, hgd]
      rcases hfa : NUMAFabric.findOnAnyNUMA gfi n1 p.DevClass p.Provider
        with ⟨r2, n2⟩
      rw [hfa] at hGD
      cases r2 with
      | error e2 =>
        dsimp only at hGD
        rw [hGD] at hok
        exact absurd hok (by simp)
      | ok fi2 =>
        dsimp only at hGD
        have hfa' : NUMAFabric.findLoop gfi n1.getNUMANodes p.DevClass
            p.Provider n1 n1.getNUMANodes.length = (Except.ok fi2, n2) := hfa
        obtain ⟨sel, hselmem, hks, hm2, hf2⟩ := findLoop_ok gfi
          n1.getNUMANodes p.DevClass p.Provider n1.getNUMANodes.length n1
          hcur1 fi2 n2 hfa'
        obtain ⟨f1, f2, f3, f4⟩ := findLoop_state gfi n1.getNUMANodes
          p.DevClass p.Provider n1.getNUMANodes.length n1
        have f4' := fun w hw => hfa' ▸ f4 w hw
        rw [hGD]
        refine ⟨hm2.trans t1, hf2.trans t2,
          (f4' v (t5' v hv)).trans hv.symm, sel, ?_, ?_, ?_⟩
        · right
          have hsub : sel ∈ n1.numaMap.map Prod.fst :=
            (List.perm_insertionSort (· ≤ ·)
              (n1.numaMap.map Prod.fst)).subset hselmem
          rw [t1] at hsub
          exact hsub
        · intro k hk
          rw [hks k hk, congrFun hcurs1 k]
        · intro hl
          obtain ⟨m, r, hcontra⟩ := hl
          obtain ⟨hbad, _⟩ := Prod.mk.injEq _ _ _ _ ▸ hcontra
          exact Except.noConfusion hbad

/-- C6 witness: a successful call on the A, B, C engine preserves the
inventory, the filter, and the validation lookup, and leaves every
per-node cursor outside one selected node unchanged. -/
theorem c6_witness :
    ((NUMAFabric.GetDevice osLive nABC pXP).2).numaMap = nABC.numaMap ∧
    ((NUMAFabric.GetDevice osLive nABC pXP).2).ifaceFilter
      = nABC.ifaceFilter ∧
    ((NUMAFabric.GetDevice osLive nABC pXP).2).getAddrInterface
      = nABC.getAddrInterface ∧
    (∃ sel : Int, ∀ k, k ≠ sel →
      ((NUMAFabric.GetDevice osLive nABC pXP).2).currentNumaDevIdx k
        = nABC.currentNumaDevIdx k) :=
  ⟨(c6_frame_amended osLive osLive nABC pXP (copyFI devA) rfl
      (fun k hk => hk) (by decide)).1,
   (c6_frame_amended osLive osLive nABC pXP (copyFI devA) rfl
      (fun k hk => hk) (by decide)).2.1,
   (c6_frame_amended osLive osLive nABC pXP (copyFI devA) rfl
      (fun k hk => hk) (by decide)).2.2.1,
   (c6_frame_amended osLive osLive nABC pXP (copyFI devA) rfl
      (fun k hk => hk) (by decide)).2.2.2.elim
     (fun sel h => ⟨sel, h.2.1⟩)⟩

/-- C8: getNextDevIndex reaches its fatal branch (the Go panic) if and
only if the node has zero devices, and — under the spec's invariant that
every present key maps to a non-empty list — no GetDevice call ever
returns that fatal outcome, because each scan is bounded by the node's
device count and the fallback only iterates over node ids of the map. -/
theorem c8_empty_node_fatal :
    (∀ (n : NUMAFabric) (node : Int),
      (n.getNextDevIndex node).1
        = Except.error (FabricErr.fatalNoDevices node) ↔
      n.getNumDevices node = 0) ∧
    (∀ (gfi : String → Except String addrFI) (n : NUMAFabric)
      (p : FabricIfaceParams) (z : Int), invariantNonEmpty n →
      (NUMAFabric.GetDevice gfi n p).1
        ≠ Except.error (FabricErr.fatalNoDevices z)) := by
  constructor
  · intro n node
    unfold NUMAFabric.getNextDevIndex
    dsimp only
    constructor
    · intro h
      by_contra hne
      rw [if_pos (Nat.pos_of_ne_zero hne)] at h
      exact Except.noConfusion h
    · intro h
      rw [if_neg (by rw [h]; exact Nat.lt_irrefl 0)]
  · intro gfi n p z _ hcontra
    exact GetDevice_no_noDevices gfi n p z (NUMAFabric.GetDevice gfi n p).2
      (Prod.ext hcontra rfl)

/-- C8 witness: the equivalence instantiated at the A, B, C engine and
absent node 5, and a concrete GetDevice call that does not produce the
fatal outcome. -/
theorem c8_witness :
    ((nABC.getNextDevIndex 5).1
        = Except.error (FabricErr.fatalNoDevices 5) ↔
      nABC.getNumDevices 5 = 0) ∧
    (NUMAFabric.GetDevice osLive nABC pXP).1
      ≠ Except.error (FabricErr.fatalNoDevices 0) :=
  ⟨c8_empty_node_fatal.1 nABC 5,
   c8_empty_node_fatal.2 osLive nABC pXP 0
     (by unfold invariantNonEmpty; decide)⟩

/-- C9: Conflicting filter modes are rejected at construction: validation
of a configuration with both exclude and include sets non-empty never
succeeds, and for every configuration with at most one of the two sets
non-empty the conflict check passes (the conflict error is never
returned). -/
theorem c9_conflicting_filters :
    (∀ (systemNameIsValid : String → Bool) (c : Config),
      0 < c.ExcludeFabricIfaces.length → 0 < c.IncludeFabricIfaces.length →
      Config.Validate systemNameIsValid c ≠ none) ∧
    (∀ (systemNameIsValid : String → Bool) (c : Config),
      ¬(0 < c.ExcludeFabricIfaces.length ∧
        0 < c.IncludeFabricIfaces.length) →
      Config.Validate systemNameIsValid c
        ≠ some ConfigErr.conflictingFabricIfaces) := by
  constructor
  · intro sysValid c hex hin
    unfold Config.Validate
    split_ifs with h1 h2 h3 h4
    · simp
    · simp
    · simp
    · simp
    · exact absurd ⟨hex, hin⟩ h4
  · intro sysValid c hno heq
    unfold Config.Validate at heq
    split_ifs at heq with h1 h2 h3
    all_goals exact ConfigErr.noConfusion (Option.some.inj heq)

/-- C9 witness: the config with both sets non-empty fails validation; the
exclude-only config never fails with the conflict error. -/
theorem c9_witness :
    Config.Validate sysOK cfgBoth ≠ none ∧
    Config.Validate sysOK cfgExcl ≠ some ConfigErr.conflictingFabricIfaces :=
  ⟨c9_conflicting_filters.1 sysOK cfgBoth (by decide) (by decide),
   c9_conflicting_filters.2 sysOK cfgExcl (by decide)⟩

/-- Layered-pipeline characterization of `FindDevice`, written from the
spec's wording of the domain and provider filters. -/
theorem findDevice_eq_layered (n : NUMAFabric) (params : FabricIfaceParams) :
    NUMAFabric.FindDevice n params =
      (let base := findAll params.Interface n.numaMap
       if base.length = 0 then
         Except.error (FabricErr.ifaceNotFound params.Interface)
       else
         let afterDom := if params.Domain = "" then base
           else base.filter fun fi =>
             fi.Domain == params.Domain ||
             (fi.Name == params.Domain && fi.Domain == "")
         if afterDom.length = 0 then
           Except.error
             (FabricErr.domainNotFound params.Interface params.Domain)
         else
           let afterProv := if params.Provider = "" then afterDom
             else afterDom.filter fun fi =>
               fi.HasProvider params.Provider ||
               fi.NetDevClass == FabricDevClassManual
           if afterProv.length = 0 then
             Except.error (FabricErr.providerNotSupported params.Interface
               params.Provider)
           else Except.ok afterProv) := by
  unfold NUMAFabric.FindDevice NUMAFabric.Find
  dsimp only
  by_cases hb : (findAll params.Interface n.numaMap).length = 0
  · rw [if_pos hb, if_neg (by omega)]
  · rw [if_pos (Nat.pos_of_ne_zero hb), if_neg hb]
    dsimp only
    by_cases hd : params.Domain = ""
    · rw [if_neg (not_not_intro hd), if_pos hd, if_neg hb]
      dsimp only
      by_cases hp : params.Provider = ""
      · rw [if_neg (not_not_intro hp), if_pos hp, if_neg hb]
      · rw [if_neg hp]
        unfold filterProvider
        by_cases hfp : ((findAll params.Interface n.numaMap).filter fun fi =>
            fi.HasProvider params.Provider ||
            fi.NetDevClass == FabricDevClassManual).length = 0
        · rw [if_pos hfp, if_pos hp]
        · rw [if_neg hfp, if_pos hp]
    · rw [if_pos hd, if_neg hd]
      unfold filterDomain
      by_cases hfd : ((findAll params.Interface n.numaMap).filter fun fi =>
          fi.Domain == params.Domain ||
          (fi.Name == params.Domain && fi.Domain == "")).length = 0
      · rw [if_pos hfd, if_pos hfd]
      · rw [if_neg hfd, if_neg hfd]
        dsimp only
        by_cases hp : params.Provider = ""
        · rw [if_neg (not_not_intro hp), if_pos hp, if_neg hfd]
        · rw [if_neg hp]
          unfold filterProvider
          by_cases hfp : (((findAll params.Interface n.numaMap).filter fun fi =>
              fi.Domain == params.Domain ||
              (fi.Name == params.Domain && fi.Domain == "")).filter fun fi =>
              fi.HasProvider params.Provider ||
              fi.NetDevClass == FabricDevClassManual).length = 0
          · rw [if_pos hfp, if_pos hp]
          · rw [if_neg hfp, if_pos hp]

/-- C4: FindDevice layered filtering: for every engine and request,
FindDevice equals the layered pipeline — gather all name matches
(ifaceNotFound when none), then, if a domain is requested, keep entries
whose domain equals it or whose name equals it while their domain is
empty (domainNotFound naming the domain when none remain), then, if a
provider is requested, keep entries supporting it or of Manual class
(providerNotSupported naming the provider when none remain) — and the two
concrete "ib0" scenarios behave as the spec states. -/
theorem c4_findDevice_layered :
    (∀ (n : NUMAFabric) (params : FabricIfaceParams),
      NUMAFabric.FindDevice n params =
        (let base := findAll params.Interface n.numaMap
         if base.length = 0 then
           Except.error (FabricErr.ifaceNotFound params.Interface)
         else
           let afterDom := if params.Domain = "" then base
             else base.filter fun fi =>
               fi.Domain == params.Domain ||
               (fi.Name == params.Domain && fi.Domain == "")
           if afterDom.length = 0 then
             Except.error
               (FabricErr.domainNotFound params.Interface params.Domain)
           else
             let afterProv := if params.Provider = "" then afterDom
               else afterDom.filter fun fi =>
                 fi.HasProvider params.Provider ||
                 fi.NetDevClass == FabricDevClassManual
             if afterProv.length = 0 then
               Except.error (FabricErr.providerNotSupported params.Interface
                 params.Provider)
             else Except.ok afterProv)) ∧
    NUMAFabric.FindDevice nFD ⟨"ib0", "", "tcp", 0, 0⟩
      = Except.ok [e2ib0] ∧
    NUMAFabric.FindDevice nFD ⟨"ib0", "nope", "", 0, 0⟩
      = Except.error (FabricErr.domainNotFound "ib0" "nope") :=
  ⟨findDevice_eq_layered, by decide, by decide⟩
